import Mathlib

/-! RPMB secure storage of kernelflinger.

Shallow embedding of `libkernelflinger/rpmb_storage.c` and of the block
cleaning of `libkernelflinger/usb_storage.c`.  Machine integers are natural
numbers reduced modulo the width of their C type where a wrap-around is
possible.  Byte buffers are lists of natural numbers (one entry per byte).  The
eMMC transport (`emmc_*` functions) and the USB command transport are not part
of the sources and are taken as parameters; every write or command handed to
them is appended to a ghost log.
-/

namespace Kernelflinger

/-! ## UEFI status codes -/

/-- Modelled from the spec: EFI_STATUS is the UINTN status word of the UEFI
headers (not part of the sources), here for the 64-bit target. -/
abbrev EFI_STATUS := Nat

/-- Modelled from the spec: the success status of the UEFI headers. -/
def EFI_SUCCESS : EFI_STATUS := 0

/-- Modelled from the spec: error statuses of the UEFI headers have the top bit
of the 64-bit status word set. -/
def EFIERR (a : Nat) : EFI_STATUS := 2 ^ 63 + a

/-- Modelled from the spec: InvalidArgument, error number 2 of the UEFI headers. -/
def EFI_INVALID_PARAMETER : EFI_STATUS := EFIERR 2

/-- Modelled from the spec: OutOfResources, error number 9 of the UEFI headers. -/
def EFI_OUT_OF_RESOURCES : EFI_STATUS := EFIERR 9

/-- Modelled from the spec: NotFound, error number 14 of the UEFI headers. -/
def EFI_NOT_FOUND : EFI_STATUS := EFIERR 14

/-- Modelled from the spec: the EFI_ERROR test of the UEFI headers, true when the
status read as a signed 64-bit integer is negative. -/
def EFI_ERROR (a : EFI_STATUS) : Bool := decide (2 ^ 63 ≤ a)

/-! ## Layout constants (rpmb_storage.c lines 49-56) -/

def RPMB_DEVICE_STATE_BLOCK_COUNT : Nat := 1
def RPMB_DEVICE_STATE_BLOCK_ADDR : Nat := 2
def RPMB_BLOCK_SIZE : Nat := 256
def RPMB_ROLLBACK_INDEX_COUNT_PER_BLOCK : Nat := RPMB_BLOCK_SIZE / 8
def RPMB_ROLLBACK_INDEX_BLOCK_TOTAL_COUNT : Nat := 8
def RPMB_ROLLBACK_INDEX_BLOCK_ADDR : Nat := 3
def DEVICE_STATE_MAGIC : Nat := 0xDC
def RPMB_ALL_BLOCK_TOTAL_COUNT : Nat := 10

/-- Modelled from the spec: the size in bytes of an authentication key
(rpmb_storage.h is not part of the sources; the spec fixes 32 bytes). -/
def RPMB_KEY_SIZE : Nat := 32

/-! ## Bytes -/

/-- The eight bytes of a UINT64 object in memory (little endian, x86). -/
def UINT64_bytes (v : Nat) : List Nat :=
  (List.range 8).map fun k => v / 256 ^ k % 256

/-- The UINT64 value held by a run of bytes in memory (little endian, x86). -/
def UINT64_of_bytes (l : List Nat) : Nat :=
  l.foldr (fun b acc => b + 256 * acc) 0

/-- The C call memcpy(dst + off, src, src.length) on a byte buffer. -/
def memcpy (dst : List Nat) (off : Nat) (src : List Nat) : List Nat :=
  dst.take off ++ src ++ dst.drop (off + src.length)

/-- The bytes buf[off .. off + n) of a buffer. -/
def bytes_at (buf : List Nat) (off n : Nat) : List Nat :=
  (buf.drop off).take n

/-! ## Transport (external collaborator) and module state -/

/-- Outcome of emmc_read_rpmb_data: status, RPMB result code, the caller's
buffer as left by the call, and the device afterwards. -/
structure ReadReply (σ : Type) where
  status : EFI_STATUS
  result : Nat
  buffer : List Nat
  dev : σ

/-- Outcome of emmc_write_rpmb_data: status, RPMB result code, device afterwards. -/
structure WriteReply (σ : Type) where
  status : EFI_STATUS
  result : Nat
  dev : σ

/-- Outcome of emmc_simulate_read_rpmb_data: status, buffer, device afterwards. -/
structure SimReadReply (σ : Type) where
  status : EFI_STATUS
  buffer : List Nat
  dev : σ

/-- Outcome of emmc_simulate_write_rpmb_data: status and device afterwards. -/
structure SimWriteReply (σ : Type) where
  status : EFI_STATUS
  dev : σ

/-- Outcome of emmc_get_counter: status, RPMB result code, counter, device. -/
structure CounterReply (σ : Type) where
  status : EFI_STATUS
  result : Nat
  write_counter : Nat
  dev : σ

/-- The transport primitives used by rpmb_storage.c, over a device state σ.
Arguments follow the C prototypes with the leading NULL handle dropped:
real read and write take (device, block count, block address, buffer, key),
simulated read and write take (device, byte offset, buffer, size). -/
structure Transport (σ : Type) where
  emmc_read_rpmb_data : σ → Nat → Nat → List Nat → List Nat → ReadReply σ
  emmc_write_rpmb_data : σ → Nat → Nat → List Nat → List Nat → WriteReply σ
  emmc_get_counter : σ → List Nat → CounterReply σ
  emmc_simulate_read_rpmb_data : σ → Nat → List Nat → Nat → SimReadReply σ
  emmc_simulate_write_rpmb_data : σ → Nat → List Nat → Nat → SimWriteReply σ
  is_eom_and_secureboot_enabled : σ → Bool

/-- A write handed to the transport.  For the authenticated write the buffer is
the object the pointer argument designates (the transport consumes
count * 256 bytes starting there). -/
inductive Call where
  | write (count addr : Nat) (buffer key : List Nat)
  | sim_write (offset : Nat) (buffer : List Nat) (size : Nat)
deriving DecidableEq, Repr

/-- Module state: the device behind the transport, the statics rpmb_buffer and
rpmb_key, and the ghost log of transport writes issued so far (oldest first). -/
structure Rpmb (σ : Type) where
  dev : σ
  rpmb_buffer : List Nat
  rpmb_key : List Nat
  calls : List Call

/-! ## Real backend -/

/-- Embedding of write_rpmb_device_state_real (lines 322-342). -/
def write_rpmb_device_state_real {σ : Type} (T : Transport σ) (s : Rpmb σ)
    (state : Nat) : EFI_STATUS × Rpmb σ :=
  let r := T.emmc_read_rpmb_data s.dev RPMB_DEVICE_STATE_BLOCK_COUNT
    RPMB_DEVICE_STATE_BLOCK_ADDR s.rpmb_buffer s.rpmb_key
  if EFI_ERROR r.status then
    (r.status, { s with dev := r.dev, rpmb_buffer := r.buffer })
  else
    let buf := (r.buffer.set 0 DEVICE_STATE_MAGIC).set 1 state
    let w := T.emmc_write_rpmb_data r.dev RPMB_DEVICE_STATE_BLOCK_COUNT
      RPMB_DEVICE_STATE_BLOCK_ADDR buf s.rpmb_key
    let s2 : Rpmb σ :=
      { dev := w.dev, rpmb_buffer := buf, rpmb_key := s.rpmb_key,
        calls := s.calls ++ [Call.write RPMB_DEVICE_STATE_BLOCK_COUNT
          RPMB_DEVICE_STATE_BLOCK_ADDR buf s.rpmb_key] }
    if EFI_ERROR w.status then (w.status, s2) else (EFI_SUCCESS, s2)

/-- Embedding of read_rpmb_device_state_real (lines 344-362).  The middle
component is the value stored through the state pointer, if any. -/
def read_rpmb_device_state_real {σ : Type} (T : Transport σ) (s : Rpmb σ) :
    EFI_STATUS × Option Nat × Rpmb σ :=
  let r := T.emmc_read_rpmb_data s.dev RPMB_DEVICE_STATE_BLOCK_COUNT
    RPMB_DEVICE_STATE_BLOCK_ADDR s.rpmb_buffer s.rpmb_key
  let s1 : Rpmb σ := { s with dev := r.dev, rpmb_buffer := r.buffer }
  if EFI_ERROR r.status then (r.status, none, s1)
  else if r.buffer.getD 0 0 ≠ DEVICE_STATE_MAGIC then (EFI_NOT_FOUND, none, s1)
  else (EFI_SUCCESS, some (r.buffer.getD 1 0), s1)

/-- The UINT16 local blk_addr of the rollback-index functions (lines 368-371). -/
def rollback_blk_addr (index : Nat) : Nat :=
  (RPMB_ROLLBACK_INDEX_BLOCK_ADDR + index / RPMB_ROLLBACK_INDEX_COUNT_PER_BLOCK) % 2 ^ 16

/-- The UINT16 local blk_offset of the rollback-index functions (line 372). -/
def rollback_blk_offset (index : Nat) : Nat :=
  index % RPMB_ROLLBACK_INDEX_COUNT_PER_BLOCK * 8 % 2 ^ 16

/-- Embedding of write_rpmb_rollback_index_real (lines 364-393). -/
def write_rpmb_rollback_index_real {σ : Type} (T : Transport σ) (s : Rpmb σ)
    (index in_rollback_index : Nat) : EFI_STATUS × Rpmb σ :=
  let blk_addr := rollback_blk_addr index
  let blk_offset := rollback_blk_offset index
  let r := T.emmc_read_rpmb_data s.dev 1 blk_addr s.rpmb_buffer s.rpmb_key
  let s1 : Rpmb σ := { s with dev := r.dev, rpmb_buffer := r.buffer }
  if EFI_ERROR r.status then (r.status, s1)
  else if UINT64_bytes in_rollback_index = bytes_at r.buffer blk_offset 8 then
    (EFI_SUCCESS, s1)
  else
    let buf := memcpy r.buffer blk_offset (UINT64_bytes in_rollback_index)
    let w := T.emmc_write_rpmb_data r.dev 1 blk_addr buf s.rpmb_key
    let s2 : Rpmb σ :=
      { dev := w.dev, rpmb_buffer := buf, rpmb_key := s.rpmb_key,
        calls := s.calls ++ [Call.write 1 blk_addr buf s.rpmb_key] }
    if EFI_ERROR w.status then (w.status, s2) else (EFI_SUCCESS, s2)

/-- Embedding of read_rpmb_rollback_index_real (lines 395-413). -/
def read_rpmb_rollback_index_real {σ : Type} (T : Transport σ) (s : Rpmb σ)
    (index : Nat) : EFI_STATUS × Option Nat × Rpmb σ :=
  let blk_addr := rollback_blk_addr index
  let blk_offset := rollback_blk_offset index
  let r := T.emmc_read_rpmb_data s.dev 1 blk_addr s.rpmb_buffer s.rpmb_key
  let s1 : Rpmb σ := { s with dev := r.dev, rpmb_buffer := r.buffer }
  if EFI_ERROR r.status then (r.status, none, s1)
  else (EFI_SUCCESS, some (UINT64_of_bytes (bytes_at r.buffer blk_offset 8)), s1)

/-- Embedding of write_rpmb_keybox_magic_real (lines 415-440).  The offset is
a UINT16 argument used as block address, the buffer argument holds the eight
bytes to store. -/
def write_rpmb_keybox_magic_real {σ : Type} (T : Transport σ) (s : Rpmb σ)
    (offset : Nat) (buffer : List Nat) : EFI_STATUS × Rpmb σ :=
  let r := T.emmc_read_rpmb_data s.dev 1 offset s.rpmb_buffer s.rpmb_key
  let s1 : Rpmb σ := { s with dev := r.dev, rpmb_buffer := r.buffer }
  if EFI_ERROR r.status then (r.status, s1)
  else if bytes_at buffer 0 8 = bytes_at r.buffer 0 8 then (EFI_SUCCESS, s1)
  else
    let buf := memcpy r.buffer 0 (bytes_at buffer 0 8)
    let w := T.emmc_write_rpmb_data r.dev 1 offset buf s.rpmb_key
    let s2 : Rpmb σ :=
      { dev := w.dev, rpmb_buffer := buf, rpmb_key := s.rpmb_key,
        calls := s.calls ++ [Call.write 1 offset buf s.rpmb_key] }
    if EFI_ERROR w.status then (w.status, s2) else (EFI_SUCCESS, s2)

/-- Embedding of read_rpmb_keybox_magic_real (lines 442-457). -/
def read_rpmb_keybox_magic_real {σ : Type} (T : Transport σ) (s : Rpmb σ)
    (offset : Nat) : EFI_STATUS × Option (List Nat) × Rpmb σ :=
  let r := T.emmc_read_rpmb_data s.dev 1 offset s.rpmb_buffer s.rpmb_key
  let s1 : Rpmb σ := { s with dev := r.dev, rpmb_buffer := r.buffer }
  if EFI_ERROR r.status then (r.status, none, s1)
  else (EFI_SUCCESS, some (bytes_at r.buffer 0 8), s1)

/-! ## Simulated backend -/

/-- Embedding of write_rpmb_device_state_simulate (lines 502-527). -/
def write_rpmb_device_state_simulate {σ : Type} (T : Transport σ) (s : Rpmb σ)
    (state : Nat) : EFI_STATUS × Rpmb σ :=
  let byte_offset := RPMB_DEVICE_STATE_BLOCK_ADDR * RPMB_BLOCK_SIZE % 2 ^ 32
  let r := T.emmc_simulate_read_rpmb_data s.dev byte_offset s.rpmb_buffer RPMB_BLOCK_SIZE
  let s1 : Rpmb σ := { s with dev := r.dev, rpmb_buffer := r.buffer }
  if r.status = EFI_NOT_FOUND then (EFI_SUCCESS, s1)
  else if EFI_ERROR r.status then (r.status, s1)
  else
    let buf := (r.buffer.set 0 DEVICE_STATE_MAGIC).set 1 state
    let w := T.emmc_simulate_write_rpmb_data r.dev byte_offset buf RPMB_BLOCK_SIZE
    let s2 : Rpmb σ :=
      { dev := w.dev, rpmb_buffer := buf, rpmb_key := s.rpmb_key,
        calls := s.calls ++ [Call.sim_write byte_offset buf RPMB_BLOCK_SIZE] }
    if EFI_ERROR w.status then (w.status, s2) else (EFI_SUCCESS, s2)

/-- Embedding of read_rpmb_device_state_simulate (lines 529-548). -/
def read_rpmb_device_state_simulate {σ : Type} (T : Transport σ) (s : Rpmb σ) :
    EFI_STATUS × Option Nat × Rpmb σ :=
  let byte_offset := RPMB_DEVICE_STATE_BLOCK_ADDR * RPMB_BLOCK_SIZE % 2 ^ 32
  let r := T.emmc_simulate_read_rpmb_data s.dev byte_offset s.rpmb_buffer RPMB_BLOCK_SIZE
  let s1 : Rpmb σ := { s with dev := r.dev, rpmb_buffer := r.buffer }
  if EFI_ERROR r.status then (r.status, none, s1)
  else if r.buffer.getD 0 0 ≠ DEVICE_STATE_MAGIC then (EFI_NOT_FOUND, none, s1)
  else (EFI_SUCCESS, some (r.buffer.getD 1 0), s1)

/-- The UINT32 local byte_offset of the simulated rollback-index functions
(lines 555 and 588). -/
def rollback_byte_offset (index : Nat) : Nat :=
  (RPMB_ROLLBACK_INDEX_BLOCK_ADDR * RPMB_BLOCK_SIZE + index * 8) % 2 ^ 32

/-- Embedding of write_rpmb_rollback_index_simulate (lines 550-581).  The
EFI_ERROR test precedes the EFI_NOT_FOUND test, as in the source. -/
def write_rpmb_rollback_index_simulate {σ : Type} (T : Transport σ) (s : Rpmb σ)
    (index in_rollback_index : Nat) : EFI_STATUS × Rpmb σ :=
  let byte_offset := rollback_byte_offset index
  let r := T.emmc_simulate_read_rpmb_data s.dev byte_offset s.rpmb_buffer 8
  let s1 : Rpmb σ := { s with dev := r.dev, rpmb_buffer := r.buffer }
  if EFI_ERROR r.status then (r.status, s1)
  else if r.status = EFI_NOT_FOUND then (EFI_SUCCESS, s1)
  else if UINT64_bytes in_rollback_index = bytes_at r.buffer 0 8 then (EFI_SUCCESS, s1)
  else
    let buf := memcpy r.buffer 0 (UINT64_bytes in_rollback_index)
    let w := T.emmc_simulate_write_rpmb_data r.dev byte_offset buf 8
    let s2 : Rpmb σ :=
      { dev := w.dev, rpmb_buffer := buf, rpmb_key := s.rpmb_key,
        calls := s.calls ++ [Call.sim_write byte_offset buf 8] }
    if EFI_ERROR w.status then (w.status, s2) else (EFI_SUCCESS, s2)

/-- Embedding of read_rpmb_rollback_index_simulate (lines 583-603). -/
def read_rpmb_rollback_index_simulate {σ : Type} (T : Transport σ) (s : Rpmb σ)
    (index : Nat) : EFI_STATUS × Option Nat × Rpmb σ :=
  let byte_offset := rollback_byte_offset index
  let r := T.emmc_simulate_read_rpmb_data s.dev byte_offset s.rpmb_buffer 8
  let s1 : Rpmb σ := { s with dev := r.dev, rpmb_buffer := r.buffer }
  if r.status = EFI_NOT_FOUND then (EFI_SUCCESS, some 0, s1)
  else if EFI_ERROR r.status then (r.status, none, s1)
  else (EFI_SUCCESS, some (UINT64_of_bytes (bytes_at r.buffer 0 8)), s1)

/-- Embedding of write_rpmb_keybox_magic_simulate (lines 605-636).  The offset
is a UINT16 argument, the buffer argument holds the eight bytes to store. -/
def write_rpmb_keybox_magic_simulate {σ : Type} (T : Transport σ) (s : Rpmb σ)
    (offset : Nat) (buffer : List Nat) : EFI_STATUS × Rpmb σ :=
  let byte_offset := offset * RPMB_BLOCK_SIZE % 2 ^ 32
  let r := T.emmc_simulate_read_rpmb_data s.dev byte_offset s.rpmb_buffer 8
  let s1 : Rpmb σ := { s with dev := r.dev, rpmb_buffer := r.buffer }
  if EFI_ERROR r.status then (r.status, s1)
  else if r.status = EFI_NOT_FOUND then (EFI_SUCCESS, s1)
  else if bytes_at buffer 0 8 = bytes_at r.buffer 0 8 then (EFI_SUCCESS, s1)
  else
    let buf := memcpy r.buffer 0 (bytes_at buffer 0 8)
    let w := T.emmc_simulate_write_rpmb_data r.dev byte_offset buf 8
    let s2 : Rpmb σ :=
      { dev := w.dev, rpmb_buffer := buf, rpmb_key := s.rpmb_key,
        calls := s.calls ++ [Call.sim_write byte_offset buf 8] }
    if EFI_ERROR w.status then (w.status, s2) else (EFI_SUCCESS, s2)

/-- Embedding of read_rpmb_keybox_magic_simulate (lines 638-660).  The middle
component is the eight bytes stored into the caller's buffer, if any. -/
def read_rpmb_keybox_magic_simulate {σ : Type} (T : Transport σ) (s : Rpmb σ)
    (offset : Nat) : EFI_STATUS × Option (List Nat) × Rpmb σ :=
  let byte_offset := offset * RPMB_BLOCK_SIZE % 2 ^ 32
  let r := T.emmc_simulate_read_rpmb_data s.dev byte_offset s.rpmb_buffer 8
  let s1 : Rpmb σ := { s with dev := r.dev, rpmb_buffer := r.buffer }
  if r.status = EFI_NOT_FOUND then (EFI_SUCCESS, some (List.replicate 8 0), s1)
  else if EFI_ERROR r.status then (r.status, none, s1)
  else (EFI_SUCCESS, some (bytes_at r.buffer 0 8), s1)

/-! ## Bulk erase -/

/-- The for loop of erase_simulate_rpmb_all_blocks (lines 194-201) with n
iterations left, loop counter i and ret as last assigned. -/
def erase_simulate_loop {σ : Type} (T : Transport σ) :
    Nat → Nat → EFI_STATUS → Rpmb σ → EFI_STATUS × Rpmb σ
  | 0, _, ret, s => (ret, s)
  | n + 1, i, _, s =>
    let blk_offset := i * RPMB_BLOCK_SIZE % 2 ^ 32
    let w := T.emmc_simulate_write_rpmb_data s.dev blk_offset s.rpmb_buffer RPMB_BLOCK_SIZE
    let s1 : Rpmb σ :=
      { s with dev := w.dev,
               calls := s.calls ++ [Call.sim_write blk_offset s.rpmb_buffer RPMB_BLOCK_SIZE] }
    if EFI_ERROR w.status then (w.status, s1)
    else erase_simulate_loop T n (i + 1) w.status s1

/-- Embedding of erase_simulate_rpmb_all_blocks (lines 186-204). -/
def erase_simulate_rpmb_all_blocks {σ : Type} (T : Transport σ) (s : Rpmb σ) :
    EFI_STATUS × Rpmb σ :=
  erase_simulate_loop T RPMB_ALL_BLOCK_TOTAL_COUNT 0 EFI_SUCCESS
    { s with rpmb_buffer := List.replicate RPMB_BLOCK_SIZE 0 }

/-- Embedding of erase_rpmb_all_blocks (lines 206-230). -/
def erase_rpmb_all_blocks {σ : Type} (T : Transport σ) (s : Rpmb σ) :
    EFI_STATUS × Rpmb σ :=
  if T.is_eom_and_secureboot_enabled s.dev then
    let w := T.emmc_write_rpmb_data s.dev RPMB_ALL_BLOCK_TOTAL_COUNT 0 s.rpmb_buffer s.rpmb_key
    let s1 : Rpmb σ :=
      { s with dev := w.dev,
               calls := s.calls ++ [Call.write RPMB_ALL_BLOCK_TOTAL_COUNT 0 s.rpmb_buffer
                 s.rpmb_key] }
    if EFI_ERROR w.status then (w.status, s1) else (EFI_SUCCESS, s1)
  else
    let r := erase_simulate_rpmb_all_blocks T s
    if EFI_ERROR r.1 then (r.1, r.2) else (EFI_SUCCESS, r.2)

/-! ## Derived-key store -/

/-- The statics derived_key (NULL or the allocated bytes) and number_derived_key. -/
structure KeyStore where
  derived_key : Option (List Nat)
  number_derived_key : Nat
deriving DecidableEq, Repr

/-- The for loop of set_rpmb_derived_key (lines 91-92): the counter i is a UINT8
and wraps at 256; fuel bounds the number of iterations run. -/
def copy_keys : Nat → Nat → Nat → List Nat → List Nat → Option (List Nat)
  | 0, _, _, _, _ => none
  | fuel + 1, i, num_key, kbuf, dst =>
    if i < num_key then
      copy_keys fuel ((i + 1) % 256) num_key kbuf
        (memcpy dst (i * RPMB_KEY_SIZE) (bytes_at kbuf (i * RPMB_KEY_SIZE) RPMB_KEY_SIZE))
    else some dst

/-- Embedding of set_rpmb_derived_key (lines 73-96).  RPMB_NUMBER_KEY (a
constant of a header that is not part of the sources) and AllocatePool (which
yields a block of arbitrary content, or nothing) are parameters; kbuf is none for
a NULL pointer; size_t is 64 bits wide.  The result is none when fuel does not
suffice for the copy loop. -/
def set_rpmb_derived_key (RPMB_NUMBER_KEY : Nat) (AllocatePool : Nat → Option (List Nat))
    (fuel : Nat) (ks : KeyStore) (kbuf : Option (List Nat)) (kbuf_len num_key : Nat) :
    Option (EFI_STATUS × KeyStore) :=
  match kbuf with
  | none => some (EFI_INVALID_PARAMETER, ks)
  | some kb =>
    if num_key > RPMB_NUMBER_KEY ∨ num_key * RPMB_KEY_SIZE % 2 ^ 64 > kbuf_len then
      some (EFI_INVALID_PARAMETER, ks)
    else
      match AllocatePool (num_key * RPMB_KEY_SIZE % 2 ^ 64) with
      | none => some (EFI_OUT_OF_RESOURCES, { ks with derived_key := none })
      | some pool =>
        match copy_keys fuel 0 num_key kb pool with
        | none => none
        | some keys =>
          some (EFI_SUCCESS, { derived_key := some keys, number_derived_key := num_key % 256 })

/-- Embedding of get_rpmb_derived_key (lines 98-112).  The flags say whether the
two output pointers are non-NULL; the outputs are the key bytes and the count. -/
def get_rpmb_derived_key (ks : KeyStore) (d_key number_d_key : Bool) :
    EFI_STATUS × Option (List Nat × Nat) :=
  if !d_key || !number_d_key then (EFI_INVALID_PARAMETER, none)
  else
    match ks.derived_key with
    | none => (EFI_NOT_FOUND, none)
    | some keys => (EFI_SUCCESS, some (keys, ks.number_derived_key))

/-! ## Transport instances -/

/-- Modelled from the spec: the content of a byte-addressed storage region. -/
abbrev Store := Nat → Nat

/-- Modelled from the spec: the n bytes stored from byte address base on. -/
def store_read (m : Store) (base n : Nat) : List Nat :=
  (List.range n).map fun k => m (base + k)

/-- Modelled from the spec: the region after storing data from byte address base on. -/
def store_write (m : Store) (base : Nat) (data : List Nat) : Store :=
  fun a => if base ≤ a ∧ a < base + data.length then data.getD (a - base) 0 else m a

/-- Modelled from the spec: the transport as a faithful block store without I/O
failures.  Reads return the stored bytes into the head of the buffer, writes
store the bytes of the buffer; the authenticated operations address 256-byte
blocks, the simulated ones bytes; sb is the secure-boot query. -/
def faithful (sb : Bool) : Transport Store where
  emmc_read_rpmb_data m count addr buf _ :=
    ⟨EFI_SUCCESS, 0, store_read m (addr * 256) (count * 256) ++ buf.drop (count * 256), m⟩
  emmc_write_rpmb_data m count addr buf _ :=
    ⟨EFI_SUCCESS, 0, store_write m (addr * 256) (buf.take (count * 256))⟩
  emmc_get_counter m _ := ⟨EFI_SUCCESS, 0, 0, m⟩
  emmc_simulate_read_rpmb_data m off buf size :=
    ⟨EFI_SUCCESS, store_read m off size ++ buf.drop size, m⟩
  emmc_simulate_write_rpmb_data m off buf size :=
    ⟨EFI_SUCCESS, store_write m off (buf.take size)⟩
  is_eom_and_secureboot_enabled _ := sb

/-- Modelled from the spec: a transport without storage whose reads answer rd
and leave the buffer alone and whose writes answer wr; sb is the secure-boot
query. -/
def answering (rd wr : EFI_STATUS) (sb : Bool) : Transport Unit where
  emmc_read_rpmb_data _ _ _ buf _ := ⟨rd, 0, buf, ()⟩
  emmc_write_rpmb_data _ _ _ _ _ := ⟨wr, 0, ()⟩
  emmc_get_counter _ _ := ⟨rd, 0, 0, ()⟩
  emmc_simulate_read_rpmb_data _ _ buf _ := ⟨rd, buf, ()⟩
  emmc_simulate_write_rpmb_data _ _ _ _ := ⟨wr, ()⟩
  is_eom_and_secureboot_enabled _ := sb

/-- A module state over a zero-filled store: zero buffer, zero key, empty log. -/
def fresh : Rpmb Store :=
  { dev := fun _ => 0, rpmb_buffer := List.replicate 256 0,
    rpmb_key := List.replicate 32 0, calls := [] }

/-- A module state over the storage-less transport. -/
def blank : Rpmb Unit :=
  { dev := (), rpmb_buffer := List.replicate 256 0,
    rpmb_key := List.replicate 32 0, calls := [] }


/-- The module state after write_rpmb_device_state_real(3) over the zero-filled
faithful store with secure boot enforced: the scratch buffer holds the
device-state block, 0xDC 0x03 0x00 ... -/
def after_device_state_write : Rpmb Store :=
  (write_rpmb_device_state_real (faithful true) fresh 3).2

/-- Modelled from the spec: the RPMB result code that says no authentication
key is programmed (rpmb.h is not part of the sources; value 7 as in the eMMC
standard). -/
def RPMB_RES_NO_AUTH_KEY_PROGRAM : Nat := 7

/-- Embedding of is_rpmb_programed_real (lines 278-291).  The counter query is
made with the active key rpmb_key. -/
def is_rpmb_programed_real {σ : Type} (T : Transport σ) (s : Rpmb σ) : Bool × Rpmb σ :=
  let r := T.emmc_get_counter s.dev s.rpmb_key
  let s1 : Rpmb σ := { s with dev := r.dev }
  if EFI_ERROR r.status && r.result == RPMB_RES_NO_AUTH_KEY_PROGRAM then (false, s1)
  else (true, s1)

/-! ## Ghost definitions for the erase loop -/

/-- The device after the first j writes of the erase loop that starts at block
i on device dev, every write handing over buf. -/
def erase_dev {σ : Type} (T : Transport σ) (buf : List Nat) : Nat → Nat → σ → σ
  | 0, _, dev => dev
  | j + 1, i, dev =>
    erase_dev T buf j (i + 1)
      (T.emmc_simulate_write_rpmb_data dev (i * RPMB_BLOCK_SIZE % 2 ^ 32) buf
        RPMB_BLOCK_SIZE).dev

/-- The status answered to write number j (counted from 0) of the erase loop
that starts at block i on device dev. -/
def erase_status {σ : Type} (T : Transport σ) (buf : List Nat) (j i : Nat) (dev : σ) :
    EFI_STATUS :=
  (T.emmc_simulate_write_rpmb_data (erase_dev T buf j i dev)
    ((i + j) * RPMB_BLOCK_SIZE % 2 ^ 32) buf RPMB_BLOCK_SIZE).status

/-- The first n writes of the erase loop that starts at block i, in order. -/
def erase_calls (buf : List Nat) (i n : Nat) : List Call :=
  (List.range n).map fun j => Call.sim_write ((i + j) * RPMB_BLOCK_SIZE % 2 ^ 32) buf
    RPMB_BLOCK_SIZE

/-- Modelled from the spec: a transport that counts the simulated writes it
receives and answers err to write number k (counted from 1) and success to the
others; reads answer success and leave the buffer alone. -/
def counting (k : Nat) (err : EFI_STATUS) : Transport Nat where
  emmc_read_rpmb_data n _ _ buf _ := ⟨EFI_SUCCESS, 0, buf, n⟩
  emmc_write_rpmb_data n _ _ _ _ := ⟨EFI_SUCCESS, 0, n⟩
  emmc_get_counter n _ := ⟨EFI_SUCCESS, 0, 0, n⟩
  emmc_simulate_read_rpmb_data n _ buf _ := ⟨EFI_SUCCESS, buf, n⟩
  emmc_simulate_write_rpmb_data n _ _ _ :=
    ⟨if n + 1 = k then err else EFI_SUCCESS, n + 1⟩
  is_eom_and_secureboot_enabled _ := false

/-- A module state over the counting transport, no write received yet. -/
def uncounted : Rpmb Nat :=
  { dev := 0, rpmb_buffer := List.replicate 256 7,
    rpmb_key := List.replicate 32 0, calls := [] }

/-- The module state after write_rpmb_device_state_simulate(3) over the
zero-filled faithful store with secure boot not enforced. -/
def after_device_state_write_simulate : Rpmb Store :=
  (write_rpmb_device_state_simulate (faithful false) fresh 3).2

/-- The module state after write_rpmb_rollback_index_simulate(224, 42) over
the zero-filled faithful store with secure boot not enforced. -/
def after_index_224_write : Rpmb Store :=
  (write_rpmb_rollback_index_simulate (faithful false) fresh 224 42).2

/-! ## USB mass storage: block cleaning (usb_storage.c) -/

theorem EFI_ERROR_SUCCESS : EFI_ERROR EFI_SUCCESS = false := by decide

theorem EFI_ERROR_NOT_FOUND : EFI_ERROR EFI_NOT_FOUND = true := by decide

theorem EFI_SUCCESS_ne_NOT_FOUND : EFI_SUCCESS ≠ EFI_NOT_FOUND := by decide

theorem UINT64_bytes_length (v : Nat) : (UINT64_bytes v).length = 8 := by
  simp [UINT64_bytes]

theorem UINT64_of_bytes_bytes (v : Nat) (h : v < 2 ^ 64) :
    UINT64_of_bytes (UINT64_bytes v) = v := by
  simp only [UINT64_bytes, UINT64_of_bytes, List.range_succ, List.range_zero, List.nil_append,
    List.cons_append, List.map_cons, List.map_nil, List.foldr_cons, List.foldr_nil]
  norm_num
  omega

theorem bytes_at_append_left (l x : List Nat) (off n : Nat) (h : off + n ≤ l.length) :
    bytes_at (l ++ x) off n = bytes_at l off n := by
  unfold bytes_at
  rw [List.drop_append_of_le_length (by omega), List.take_append_of_le_length]
  simp only [List.length_drop]
  omega

theorem bytes_at_take (l : List Nat) (k off n : Nat) (h : off + n ≤ k) :
    bytes_at (l.take k) off n = bytes_at l off n := by
  unfold bytes_at
  rw [List.drop_take, List.take_take]
  congr 1
  omega

theorem memcpy_length (dst src : List Nat) (off : Nat) (h : off + src.length ≤ dst.length) :
    (memcpy dst off src).length = dst.length := by
  simp only [memcpy, List.length_append, List.length_take, List.length_drop]
  omega

theorem bytes_at_memcpy (dst src : List Nat) (off : Nat) (h : off ≤ dst.length) :
    bytes_at (memcpy dst off src) off src.length = src := by
  unfold bytes_at memcpy
  rw [List.append_assoc, List.drop_append_of_le_length (by simp; omega)]
  have : (List.take off dst).length = off := by simp; omega
  rw [List.drop_eq_nil_of_le (by omega), List.nil_append, List.take_left]

theorem store_read_length (m : Store) (base n : Nat) : (store_read m base n).length = n := by
  simp [store_read]

theorem store_read_write (m : Store) (base : Nat) (d : List Nat) :
    store_read (store_write m base d) base d.length = d := by
  apply List.ext_getElem
  · simp [store_read]
  · intro k h1 h2
    simp only [store_read, List.getElem_map, List.getElem_range, store_write]
    rw [if_pos (by omega)]
    simp [List.getD_eq_getElem?_getD, List.getElem?_eq_getElem h2]

theorem rollback_blk_offset_le (i : Nat) : rollback_blk_offset i + 8 ≤ 256 := by
  simp only [rollback_blk_offset, RPMB_ROLLBACK_INDEX_COUNT_PER_BLOCK, RPMB_BLOCK_SIZE]
  omega

theorem take_256_length (l : List Nat) (h : 256 ≤ l.length) : (l.take 256).length = 256 := by
  simp [h]

theorem write_real_faithful_status (sb : Bool) (s : Rpmb Store) (i v : Nat) :
    (write_rpmb_rollback_index_real (faithful sb) s i v).1 = EFI_SUCCESS := by
  simp only [write_rpmb_rollback_index_real, faithful, EFI_ERROR_SUCCESS, Bool.false_eq_true,
    if_false]
  split <;> rfl

/-- Over the faithful store the block read back after a rollback-index write
holds the bytes of the written value at the index offset. -/
theorem read_after_write_real (sb : Bool) (s : Rpmb Store) (i v : Nat) :
    bytes_at ((faithful sb).emmc_read_rpmb_data
      (write_rpmb_rollback_index_real (faithful sb) s i v).2.dev 1 (rollback_blk_addr i)
      (write_rpmb_rollback_index_real (faithful sb) s i v).2.rpmb_buffer
      (write_rpmb_rollback_index_real (faithful sb) s i v).2.rpmb_key).buffer
      (rollback_blk_offset i) 8 = UINT64_bytes v := by
  have hoff := rollback_blk_offset_le i
  simp only [write_rpmb_rollback_index_real, faithful, EFI_ERROR_SUCCESS, Bool.false_eq_true,
    if_false, Nat.one_mul]
  split
  · rename_i heq
    dsimp only
    rw [bytes_at_append_left _ _ _ _ (by rw [store_read_length]; exact hoff)]
    rw [bytes_at_append_left _ _ _ _ (by rw [store_read_length]; exact hoff)] at heq
    exact heq.symm
  · dsimp only
    have hlen : 256 ≤ (memcpy (store_read s.dev (rollback_blk_addr i * 256) 256 ++
        List.drop 256 s.rpmb_buffer) (rollback_blk_offset i) (UINT64_bytes v)).length := by
      rw [memcpy_length]
      · simp [store_read_length]
      · simp only [UINT64_bytes_length, List.length_append, store_read_length]
        omega
    have hrw := store_read_write s.dev (rollback_blk_addr i * 256)
      ((memcpy (store_read s.dev (rollback_blk_addr i * 256) 256 ++
        List.drop 256 s.rpmb_buffer) (rollback_blk_offset i) (UINT64_bytes v)).take 256)
    rw [take_256_length _ hlen] at hrw
    rw [hrw, bytes_at_append_left _ _ _ _ (by rw [take_256_length _ hlen]; exact hoff),
      bytes_at_take _ _ _ _ hoff]
    have := bytes_at_memcpy (store_read s.dev (rollback_blk_addr i * 256) 256 ++
        List.drop 256 s.rpmb_buffer) (UINT64_bytes v) (rollback_blk_offset i)
        (by simp only [List.length_append, store_read_length]; omega)
    rwa [UINT64_bytes_length] at this

theorem real_round_trip (sb : Bool) (s : Rpmb Store) (i v : Nat) (hv : v < 2 ^ 64) :
    (write_rpmb_rollback_index_real (faithful sb) s i v).1 = EFI_SUCCESS ∧
    (read_rpmb_rollback_index_real (faithful sb)
      (write_rpmb_rollback_index_real (faithful sb) s i v).2 i).1 = EFI_SUCCESS ∧
    (read_rpmb_rollback_index_real (faithful sb)
      (write_rpmb_rollback_index_real (faithful sb) s i v).2 i).2.1 = some v := by
  have h := read_after_write_real sb s i v
  refine ⟨write_real_faithful_status sb s i v, ?_, ?_⟩
  · generalize (write_rpmb_rollback_index_real (faithful sb) s i v).2 = x
    simp [read_rpmb_rollback_index_real, faithful, EFI_ERROR_SUCCESS]
  · generalize (write_rpmb_rollback_index_real (faithful sb) s i v).2 = x at h ⊢
    have hst : EFI_ERROR ((faithful sb).emmc_read_rpmb_data x.dev 1 (rollback_blk_addr i)
        x.rpmb_buffer x.rpmb_key).status = false := EFI_ERROR_SUCCESS
    simp only [read_rpmb_rollback_index_real, hst, Bool.false_eq_true, if_false, h,
      UINT64_of_bytes_bytes v hv]

theorem bytes_at_zero_append (d x : List Nat) : bytes_at (d ++ x) 0 d.length = d := by
  simp [bytes_at]

theorem write_simulate_faithful_status (sb : Bool) (s : Rpmb Store) (i v : Nat) :
    (write_rpmb_rollback_index_simulate (faithful sb) s i v).1 = EFI_SUCCESS := by
  simp only [write_rpmb_rollback_index_simulate, faithful, EFI_ERROR_SUCCESS,
    Bool.false_eq_true, if_false, if_neg EFI_SUCCESS_ne_NOT_FOUND]
  split <;> rfl

/-- Over the faithful store the eight bytes read back after a simulated
rollback-index write are the bytes of the written value. -/
theorem read_after_write_simulate (sb : Bool) (s : Rpmb Store) (i v : Nat) :
    bytes_at ((faithful sb).emmc_simulate_read_rpmb_data
      (write_rpmb_rollback_index_simulate (faithful sb) s i v).2.dev (rollback_byte_offset i)
      (write_rpmb_rollback_index_simulate (faithful sb) s i v).2.rpmb_buffer 8).buffer
      0 8 = UINT64_bytes v := by
  have hr8 : ∀ (m : Store) (b : Nat) (x : List Nat),
      bytes_at (store_read m b 8 ++ x) 0 8 = store_read m b 8 := by
    intro m b x
    have := bytes_at_zero_append (store_read m b 8) x
    rwa [store_read_length] at this
  simp only [write_rpmb_rollback_index_simulate, faithful, EFI_ERROR_SUCCESS,
    Bool.false_eq_true, if_false, if_neg EFI_SUCCESS_ne_NOT_FOUND, hr8]
  split
  · rename_i heq
    exact heq.symm
  · dsimp only
    have h8 : List.take 8 (memcpy (store_read s.dev (rollback_byte_offset i) 8 ++
        List.drop 8 s.rpmb_buffer) 0 (UINT64_bytes v)) = UINT64_bytes v := by
      have := bytes_at_memcpy (store_read s.dev (rollback_byte_offset i) 8 ++
        List.drop 8 s.rpmb_buffer) (UINT64_bytes v) 0 (Nat.zero_le _)
      rw [UINT64_bytes_length] at this
      simpa [bytes_at] using this
    rw [h8]
    have := store_read_write s.dev (rollback_byte_offset i) (UINT64_bytes v)
    rwa [UINT64_bytes_length] at this

theorem simulate_round_trip (sb : Bool) (s : Rpmb Store) (i v : Nat) (hv : v < 2 ^ 64) :
    (write_rpmb_rollback_index_simulate (faithful sb) s i v).1 = EFI_SUCCESS ∧
    (read_rpmb_rollback_index_simulate (faithful sb)
      (write_rpmb_rollback_index_simulate (faithful sb) s i v).2 i).1 = EFI_SUCCESS ∧
    (read_rpmb_rollback_index_simulate (faithful sb)
      (write_rpmb_rollback_index_simulate (faithful sb) s i v).2 i).2.1 = some v := by
  have h := read_after_write_simulate sb s i v
  refine ⟨write_simulate_faithful_status sb s i v, ?_, ?_⟩
  · generalize (write_rpmb_rollback_index_simulate (faithful sb) s i v).2 = x
    simp [read_rpmb_rollback_index_simulate, faithful, EFI_ERROR_SUCCESS,
      EFI_SUCCESS_ne_NOT_FOUND]
  · generalize (write_rpmb_rollback_index_simulate (faithful sb) s i v).2 = x at h ⊢
    have hst : ((faithful sb).emmc_simulate_read_rpmb_data x.dev (rollback_byte_offset i)
        x.rpmb_buffer 8).status = EFI_SUCCESS := rfl
    simp only [read_rpmb_rollback_index_simulate, hst, EFI_ERROR_SUCCESS, Bool.false_eq_true,
      if_false, if_neg EFI_SUCCESS_ne_NOT_FOUND, h, UINT64_of_bytes_bytes v hv]

/-- C1: over the faithful block store, for both backends, every index i in
0..255 and every 64-bit value v, write_rollback_index(i, v) returns success and a
following read_rollback_index(i) returns success with value v. -/
theorem C1_rollback_index_round_trip (sb : Bool) (s : Rpmb Store) (i v : Nat)
    (_hi : i < 256) (hv : v < 2 ^ 64) :
    ((write_rpmb_rollback_index_real (faithful sb) s i v).1 = EFI_SUCCESS ∧
      (read_rpmb_rollback_index_real (faithful sb)
        (write_rpmb_rollback_index_real (faithful sb) s i v).2 i).1 = EFI_SUCCESS ∧
      (read_rpmb_rollback_index_real (faithful sb)
        (write_rpmb_rollback_index_real (faithful sb) s i v).2 i).2.1 = some v) ∧
    ((write_rpmb_rollback_index_simulate (faithful sb) s i v).1 = EFI_SUCCESS ∧
      (read_rpmb_rollback_index_simulate (faithful sb)
        (write_rpmb_rollback_index_simulate (faithful sb) s i v).2 i).1 = EFI_SUCCESS ∧
      (read_rpmb_rollback_index_simulate (faithful sb)
        (write_rpmb_rollback_index_simulate (faithful sb) s i v).2 i).2.1 = some v) :=
  ⟨real_round_trip sb s i v hv, simulate_round_trip sb s i v hv⟩

/-- Witness for C1 at index 5 and value 42 over the zero-filled store. -/
theorem C1_rollback_index_round_trip_witness :
    (5 < 256 ∧ 42 < 2 ^ 64) ∧
    ((write_rpmb_rollback_index_real (faithful false) fresh 5 42).1 = EFI_SUCCESS ∧
      (read_rpmb_rollback_index_real (faithful false)
        (write_rpmb_rollback_index_real (faithful false) fresh 5 42).2 5).1 = EFI_SUCCESS ∧
      (read_rpmb_rollback_index_real (faithful false)
        (write_rpmb_rollback_index_real (faithful false) fresh 5 42).2 5).2.1 = some 42) ∧
    ((write_rpmb_rollback_index_simulate (faithful false) fresh 5 42).1 = EFI_SUCCESS ∧
      (read_rpmb_rollback_index_simulate (faithful false)
        (write_rpmb_rollback_index_simulate (faithful false) fresh 5 42).2 5).1 = EFI_SUCCESS ∧
      (read_rpmb_rollback_index_simulate (faithful false)
        (write_rpmb_rollback_index_simulate (faithful false) fresh 5 42).2 5).2.1 = some 42) :=
  ⟨⟨by decide, by decide⟩,
    C1_rollback_index_round_trip false fresh 5 42 (by decide) (by decide)⟩

theorem not_error_ne_NOT_FOUND (st : EFI_STATUS) (h : EFI_ERROR st = false) :
    st ≠ EFI_NOT_FOUND := by
  intro hst
  rw [hst, EFI_ERROR_NOT_FOUND] at h
  exact Bool.noConfusion h

/-- C2: write-avoidance for rollback indices, both backends, any transport.
When the transport read succeeds and the eight bytes it returns for index i are
the bytes of v, the write returns success and the log of transport writes is
unchanged; when they differ, exactly one transport write is appended (the
buffer with the value spliced in), and success is returned when that write
succeeds.  Over the faithful store, writing
the same value a second time issues no further write. -/
theorem C2_write_avoidance {σ : Type} (T : Transport σ) (s : Rpmb σ) (sb : Bool)
    (s0 : Rpmb Store) (i v : Nat) :
    (EFI_ERROR (T.emmc_read_rpmb_data s.dev 1 (rollback_blk_addr i) s.rpmb_buffer
        s.rpmb_key).status = false →
      (bytes_at (T.emmc_read_rpmb_data s.dev 1 (rollback_blk_addr i) s.rpmb_buffer
          s.rpmb_key).buffer (rollback_blk_offset i) 8 = UINT64_bytes v →
        (write_rpmb_rollback_index_real T s i v).1 = EFI_SUCCESS ∧
        (write_rpmb_rollback_index_real T s i v).2.calls = s.calls) ∧
      (bytes_at (T.emmc_read_rpmb_data s.dev 1 (rollback_blk_addr i) s.rpmb_buffer
          s.rpmb_key).buffer (rollback_blk_offset i) 8 ≠ UINT64_bytes v →
        (write_rpmb_rollback_index_real T s i v).2.calls = s.calls ++
          [Call.write 1 (rollback_blk_addr i)
            (memcpy (T.emmc_read_rpmb_data s.dev 1 (rollback_blk_addr i) s.rpmb_buffer
              s.rpmb_key).buffer (rollback_blk_offset i) (UINT64_bytes v)) s.rpmb_key] ∧
        (EFI_ERROR (T.emmc_write_rpmb_data
            (T.emmc_read_rpmb_data s.dev 1 (rollback_blk_addr i) s.rpmb_buffer s.rpmb_key).dev
            1 (rollback_blk_addr i)
            (memcpy (T.emmc_read_rpmb_data s.dev 1 (rollback_blk_addr i) s.rpmb_buffer
              s.rpmb_key).buffer (rollback_blk_offset i) (UINT64_bytes v))
            s.rpmb_key).status = false →
          (write_rpmb_rollback_index_real T s i v).1 = EFI_SUCCESS))) ∧
    (EFI_ERROR (T.emmc_simulate_read_rpmb_data s.dev (rollback_byte_offset i) s.rpmb_buffer
        8).status = false →
      (bytes_at (T.emmc_simulate_read_rpmb_data s.dev (rollback_byte_offset i) s.rpmb_buffer
          8).buffer 0 8 = UINT64_bytes v →
        (write_rpmb_rollback_index_simulate T s i v).1 = EFI_SUCCESS ∧
        (write_rpmb_rollback_index_simulate T s i v).2.calls = s.calls) ∧
      (bytes_at (T.emmc_simulate_read_rpmb_data s.dev (rollback_byte_offset i) s.rpmb_buffer
          8).buffer 0 8 ≠ UINT64_bytes v →
        (write_rpmb_rollback_index_simulate T s i v).2.calls = s.calls ++
          [Call.sim_write (rollback_byte_offset i)
            (memcpy (T.emmc_simulate_read_rpmb_data s.dev (rollback_byte_offset i)
              s.rpmb_buffer 8).buffer 0 (UINT64_bytes v)) 8] ∧
        (EFI_ERROR (T.emmc_simulate_write_rpmb_data
            (T.emmc_simulate_read_rpmb_data s.dev (rollback_byte_offset i) s.rpmb_buffer 8).dev
            (rollback_byte_offset i)
            (memcpy (T.emmc_simulate_read_rpmb_data s.dev (rollback_byte_offset i)
              s.rpmb_buffer 8).buffer 0 (UINT64_bytes v)) 8).status = false →
          (write_rpmb_rollback_index_simulate T s i v).1 = EFI_SUCCESS))) ∧
    ((write_rpmb_rollback_index_real (faithful sb)
        (write_rpmb_rollback_index_real (faithful sb) s0 i v).2 i v).1 = EFI_SUCCESS ∧
      (write_rpmb_rollback_index_real (faithful sb)
        (write_rpmb_rollback_index_real (faithful sb) s0 i v).2 i v).2.calls =
        (write_rpmb_rollback_index_real (faithful sb) s0 i v).2.calls) ∧
    ((write_rpmb_rollback_index_simulate (faithful sb)
        (write_rpmb_rollback_index_simulate (faithful sb) s0 i v).2 i v).1 = EFI_SUCCESS ∧
      (write_rpmb_rollback_index_simulate (faithful sb)
        (write_rpmb_rollback_index_simulate (faithful sb) s0 i v).2 i v).2.calls =
        (write_rpmb_rollback_index_simulate (faithful sb) s0 i v).2.calls) := by
  refine ⟨?_, ?_, ?_, ?_⟩
  · intro hrd
    refine ⟨fun heq => ?_, fun hne => ?_⟩
    · simp [write_rpmb_rollback_index_real, hrd, heq]
    · have hne2 : ¬ UINT64_bytes v = bytes_at (T.emmc_read_rpmb_data s.dev 1
          (rollback_blk_addr i) s.rpmb_buffer s.rpmb_key).buffer (rollback_blk_offset i) 8 :=
        fun h => hne h.symm
      refine ⟨?_, fun hwr => ?_⟩
      · simp only [write_rpmb_rollback_index_real, hrd, Bool.false_eq_true, if_false, hne2]
        split <;> rfl
      · simp [write_rpmb_rollback_index_real, hrd, hne2, hwr]
  · intro hrd
    have hnf := not_error_ne_NOT_FOUND _ hrd
    refine ⟨fun heq => ?_, fun hne => ?_⟩
    · simp [write_rpmb_rollback_index_simulate, hrd, hnf, heq]
    · have hne2 : ¬ UINT64_bytes v = bytes_at (T.emmc_simulate_read_rpmb_data s.dev
          (rollback_byte_offset i) s.rpmb_buffer 8).buffer 0 8 := fun h => hne h.symm
      refine ⟨?_, fun hwr => ?_⟩
      · simp only [write_rpmb_rollback_index_simulate, hrd, Bool.false_eq_true, if_false, hnf,
          hne2]
        split <;> rfl
      · simp [write_rpmb_rollback_index_simulate, hrd, hnf, hne2, hwr]
  · have h := read_after_write_real sb s0 i v
    generalize (write_rpmb_rollback_index_real (faithful sb) s0 i v).2 = x at h ⊢
    have hst : EFI_ERROR ((faithful sb).emmc_read_rpmb_data x.dev 1 (rollback_blk_addr i)
        x.rpmb_buffer x.rpmb_key).status = false := EFI_ERROR_SUCCESS
    simp [write_rpmb_rollback_index_real, hst, h]
  · have h := read_after_write_simulate sb s0 i v
    generalize (write_rpmb_rollback_index_simulate (faithful sb) s0 i v).2 = x at h ⊢
    have hst : ((faithful sb).emmc_simulate_read_rpmb_data x.dev (rollback_byte_offset i)
        x.rpmb_buffer 8).status = EFI_SUCCESS := rfl
    simp [write_rpmb_rollback_index_simulate, hst, h, EFI_ERROR_SUCCESS,
      EFI_SUCCESS_ne_NOT_FOUND]

/-- Witness for C2 over the zero-filled faithful store at index 5: value 0 is
already stored (no write), value 42 differs (one write). -/
theorem C2_write_avoidance_witness :
    ((write_rpmb_rollback_index_real (faithful false) fresh 5 0).1 = EFI_SUCCESS ∧
      (write_rpmb_rollback_index_real (faithful false) fresh 5 0).2.calls = fresh.calls) ∧
    ((write_rpmb_rollback_index_simulate (faithful false) fresh 5 0).1 = EFI_SUCCESS ∧
      (write_rpmb_rollback_index_simulate (faithful false) fresh 5 0).2.calls = fresh.calls) ∧
    (∃ c, (write_rpmb_rollback_index_real (faithful false) fresh 5 42).2.calls
      = fresh.calls ++ [c]) ∧
    (∃ c, (write_rpmb_rollback_index_simulate (faithful false) fresh 5 42).2.calls
      = fresh.calls ++ [c]) :=
  ⟨((C2_write_avoidance (faithful false) fresh false fresh 5 0).1 (by decide)).1 (by decide),
    ((C2_write_avoidance (faithful false) fresh false fresh 5 0).2.1 (by decide)).1 (by decide),
    ⟨_, (((C2_write_avoidance (faithful false) fresh false fresh 5 42).1 (by decide)).2
      (by decide)).1⟩,
    ⟨_, (((C2_write_avoidance (faithful false) fresh false fresh 5 42).2.1 (by decide)).2
      (by decide)).1⟩⟩

theorem device_block_bytes (l x : List Nat) (a b : Nat) (h : 2 ≤ l.length) :
    ((((l.set 0 a).set 1 b).take 256) ++ x).getD 0 0 = a ∧
    ((((l.set 0 a).set 1 b).take 256) ++ x).getD 1 0 = b := by
  match l, h with
  | _ :: _ :: _, _ => simp

theorem device_block_length (l : List Nat) (a b : Nat) :
    ((l.set 0 a).set 1 b).length = l.length := by
  simp

theorem device_state_real_round_trip (sb : Bool) (s : Rpmb Store) (st : Nat) :
    (write_rpmb_device_state_real (faithful sb) s st).1 = EFI_SUCCESS ∧
    (read_rpmb_device_state_real (faithful sb)
      (write_rpmb_device_state_real (faithful sb) s st).2).1 = EFI_SUCCESS ∧
    (read_rpmb_device_state_real (faithful sb)
      (write_rpmb_device_state_real (faithful sb) s st).2).2.1 = some st := by
  have hlen : 256 ≤ (((store_read s.dev 512 256 ++ List.drop 256 s.rpmb_buffer).set 0
      DEVICE_STATE_MAGIC).set 1 st).length := by
    rw [device_block_length]
    simp [store_read_length]
  have hrw := store_read_write s.dev 512
    ((((store_read s.dev 512 256 ++ List.drop 256 s.rpmb_buffer).set 0
      DEVICE_STATE_MAGIC).set 1 st).take 256)
  rw [take_256_length _ hlen] at hrw
  have hb := device_block_bytes (store_read s.dev 512 256 ++ List.drop 256 s.rpmb_buffer)
    (List.drop 256 (((store_read s.dev 512 256 ++ List.drop 256 s.rpmb_buffer).set 0
      DEVICE_STATE_MAGIC).set 1 st)) DEVICE_STATE_MAGIC st
    (by simp only [List.length_append, store_read_length]; omega)
  simp only [write_rpmb_device_state_real, read_rpmb_device_state_real, faithful,
    EFI_ERROR_SUCCESS, Bool.false_eq_true, if_false, RPMB_DEVICE_STATE_BLOCK_COUNT,
    RPMB_DEVICE_STATE_BLOCK_ADDR, Nat.one_mul, Nat.reduceMul, hrw, hb.1, hb.2, ne_eq,
    not_true_eq_false, and_self]

theorem device_state_simulate_round_trip (sb : Bool) (s : Rpmb Store) (st : Nat) :
    (write_rpmb_device_state_simulate (faithful sb) s st).1 = EFI_SUCCESS ∧
    (read_rpmb_device_state_simulate (faithful sb)
      (write_rpmb_device_state_simulate (faithful sb) s st).2).1 = EFI_SUCCESS ∧
    (read_rpmb_device_state_simulate (faithful sb)
      (write_rpmb_device_state_simulate (faithful sb) s st).2).2.1 = some st := by
  have hlen : 256 ≤ (((store_read s.dev 512 256 ++ List.drop 256 s.rpmb_buffer).set 0
      DEVICE_STATE_MAGIC).set 1 st).length := by
    rw [device_block_length]
    simp [store_read_length]
  have hrw := store_read_write s.dev 512
    ((((store_read s.dev 512 256 ++ List.drop 256 s.rpmb_buffer).set 0
      DEVICE_STATE_MAGIC).set 1 st).take 256)
  rw [take_256_length _ hlen] at hrw
  have hb := device_block_bytes (store_read s.dev 512 256 ++ List.drop 256 s.rpmb_buffer)
    (List.drop 256 (((store_read s.dev 512 256 ++ List.drop 256 s.rpmb_buffer).set 0
      DEVICE_STATE_MAGIC).set 1 st)) DEVICE_STATE_MAGIC st
    (by simp only [List.length_append, store_read_length]; omega)
  simp only [write_rpmb_device_state_simulate, read_rpmb_device_state_simulate, faithful,
    EFI_ERROR_SUCCESS, Bool.false_eq_true, if_false, if_neg EFI_SUCCESS_ne_NOT_FOUND,
    RPMB_DEVICE_STATE_BLOCK_ADDR, RPMB_BLOCK_SIZE, Nat.reduceMul, Nat.reducePow, Nat.reduceMod,
    hrw, hb.1, hb.2, ne_eq, not_true_eq_false, and_self]

/-- C3: over the faithful block store, for both backends and every byte value
st, write_device_state(st) returns success and a following read_device_state
returns success with state st. -/
theorem C3_device_state_round_trip (sb : Bool) (s : Rpmb Store) (st : Nat) (_hst : st < 256) :
    ((write_rpmb_device_state_real (faithful sb) s st).1 = EFI_SUCCESS ∧
      (read_rpmb_device_state_real (faithful sb)
        (write_rpmb_device_state_real (faithful sb) s st).2).1 = EFI_SUCCESS ∧
      (read_rpmb_device_state_real (faithful sb)
        (write_rpmb_device_state_real (faithful sb) s st).2).2.1 = some st) ∧
    ((write_rpmb_device_state_simulate (faithful sb) s st).1 = EFI_SUCCESS ∧
      (read_rpmb_device_state_simulate (faithful sb)
        (write_rpmb_device_state_simulate (faithful sb) s st).2).1 = EFI_SUCCESS ∧
      (read_rpmb_device_state_simulate (faithful sb)
        (write_rpmb_device_state_simulate (faithful sb) s st).2).2.1 = some st) :=
  ⟨device_state_real_round_trip sb s st, device_state_simulate_round_trip sb s st⟩

/-- Witness for C3 at state 3 over the zero-filled store. -/
theorem C3_device_state_round_trip_witness :
    3 < 256 ∧
    ((write_rpmb_device_state_real (faithful false) fresh 3).1 = EFI_SUCCESS ∧
      (read_rpmb_device_state_real (faithful false)
        (write_rpmb_device_state_real (faithful false) fresh 3).2).1 = EFI_SUCCESS ∧
      (read_rpmb_device_state_real (faithful false)
        (write_rpmb_device_state_real (faithful false) fresh 3).2).2.1 = some 3) ∧
    ((write_rpmb_device_state_simulate (faithful false) fresh 3).1 = EFI_SUCCESS ∧
      (read_rpmb_device_state_simulate (faithful false)
        (write_rpmb_device_state_simulate (faithful false) fresh 3).2).1 = EFI_SUCCESS ∧
      (read_rpmb_device_state_simulate (faithful false)
        (write_rpmb_device_state_simulate (faithful false) fresh 3).2).2.1 = some 3) :=
  ⟨by decide, C3_device_state_round_trip false fresh 3 (by decide)⟩

theorem store_read_head (m : Store) (b : Nat) (x : List Nat) :
    (store_read m b 256 ++ x).getD 0 0 = m b := by
  unfold store_read
  rw [show (256 : Nat) = 255 + 1 from rfl, List.range_succ_eq_map]
  simp

/-- C4: device-state validity, both backends, any transport.  When the
transport read of the device-state block succeeds, read_device_state returns
success with byte 1 of the block exactly when byte 0 is the magic 0xDC, and
otherwise returns NotFound without storing a state.  On an all-zero region of
the faithful store it returns NotFound. -/
theorem C4_device_state_validity {σ : Type} (T : Transport σ) (s : Rpmb σ) (sb : Bool)
    (s0 : Rpmb Store) :
    (EFI_ERROR (T.emmc_read_rpmb_data s.dev RPMB_DEVICE_STATE_BLOCK_COUNT
        RPMB_DEVICE_STATE_BLOCK_ADDR s.rpmb_buffer s.rpmb_key).status = false →
      (((read_rpmb_device_state_real T s).1 = EFI_SUCCESS ∧
          (read_rpmb_device_state_real T s).2.1 = some ((T.emmc_read_rpmb_data s.dev
            RPMB_DEVICE_STATE_BLOCK_COUNT RPMB_DEVICE_STATE_BLOCK_ADDR s.rpmb_buffer
            s.rpmb_key).buffer.getD 1 0)) ↔
        (T.emmc_read_rpmb_data s.dev RPMB_DEVICE_STATE_BLOCK_COUNT
          RPMB_DEVICE_STATE_BLOCK_ADDR s.rpmb_buffer s.rpmb_key).buffer.getD 0 0
          = DEVICE_STATE_MAGIC) ∧
      ((T.emmc_read_rpmb_data s.dev RPMB_DEVICE_STATE_BLOCK_COUNT
          RPMB_DEVICE_STATE_BLOCK_ADDR s.rpmb_buffer s.rpmb_key).buffer.getD 0 0
          ≠ DEVICE_STATE_MAGIC →
        (read_rpmb_device_state_real T s).1 = EFI_NOT_FOUND ∧
        (read_rpmb_device_state_real T s).2.1 = none)) ∧
    (EFI_ERROR (T.emmc_simulate_read_rpmb_data s.dev
        (RPMB_DEVICE_STATE_BLOCK_ADDR * RPMB_BLOCK_SIZE % 2 ^ 32) s.rpmb_buffer
        RPMB_BLOCK_SIZE).status = false →
      (((read_rpmb_device_state_simulate T s).1 = EFI_SUCCESS ∧
          (read_rpmb_device_state_simulate T s).2.1 = some ((T.emmc_simulate_read_rpmb_data
            s.dev (RPMB_DEVICE_STATE_BLOCK_ADDR * RPMB_BLOCK_SIZE % 2 ^ 32) s.rpmb_buffer
            RPMB_BLOCK_SIZE).buffer.getD 1 0)) ↔
        (T.emmc_simulate_read_rpmb_data s.dev
          (RPMB_DEVICE_STATE_BLOCK_ADDR * RPMB_BLOCK_SIZE % 2 ^ 32) s.rpmb_buffer
          RPMB_BLOCK_SIZE).buffer.getD 0 0 = DEVICE_STATE_MAGIC) ∧
      ((T.emmc_simulate_read_rpmb_data s.dev
          (RPMB_DEVICE_STATE_BLOCK_ADDR * RPMB_BLOCK_SIZE % 2 ^ 32) s.rpmb_buffer
          RPMB_BLOCK_SIZE).buffer.getD 0 0 ≠ DEVICE_STATE_MAGIC →
        (read_rpmb_device_state_simulate T s).1 = EFI_NOT_FOUND ∧
        (read_rpmb_device_state_simulate T s).2.1 = none)) ∧
    ((∀ a, s0.dev a = 0) →
      ((read_rpmb_device_state_real (faithful sb) s0).1 = EFI_NOT_FOUND ∧
        (read_rpmb_device_state_real (faithful sb) s0).2.1 = none) ∧
      ((read_rpmb_device_state_simulate (faithful sb) s0).1 = EFI_NOT_FOUND ∧
        (read_rpmb_device_state_simulate (faithful sb) s0).2.1 = none)) := by
  refine ⟨fun hrd => ⟨?_, fun hne => ?_⟩, fun hrd => ⟨?_, fun hne => ?_⟩, fun hz => ?_⟩
  · by_cases hm : (T.emmc_read_rpmb_data s.dev RPMB_DEVICE_STATE_BLOCK_COUNT
        RPMB_DEVICE_STATE_BLOCK_ADDR s.rpmb_buffer s.rpmb_key).buffer.getD 0 0
        = DEVICE_STATE_MAGIC
    · simp only [read_rpmb_device_state_real, hrd, Bool.false_eq_true, if_false, ne_eq, hm,
        not_true_eq_false, and_self]
    · simp only [read_rpmb_device_state_real, hrd, Bool.false_eq_true, if_false, ne_eq, hm,
        not_false_eq_true, if_true, iff_false, not_and]
      intro h
      exact absurd h.symm EFI_SUCCESS_ne_NOT_FOUND
  · simp only [read_rpmb_device_state_real, hrd, Bool.false_eq_true, if_false, ne_eq, hne,
      not_false_eq_true, if_true, and_self]
  · by_cases hm : (T.emmc_simulate_read_rpmb_data s.dev
        (RPMB_DEVICE_STATE_BLOCK_ADDR * RPMB_BLOCK_SIZE % 2 ^ 32) s.rpmb_buffer
        RPMB_BLOCK_SIZE).buffer.getD 0 0 = DEVICE_STATE_MAGIC
    · simp only [read_rpmb_device_state_simulate, hrd, Bool.false_eq_true, if_false, ne_eq, hm,
        not_true_eq_false, and_self]
    · simp only [read_rpmb_device_state_simulate, hrd, Bool.false_eq_true, if_false, ne_eq, hm,
        not_false_eq_true, if_true, iff_false, not_and]
      intro h
      exact absurd h.symm EFI_SUCCESS_ne_NOT_FOUND
  · simp only [read_rpmb_device_state_simulate, hrd, Bool.false_eq_true, if_false, ne_eq, hne,
      not_false_eq_true, if_true, and_self]
  · have hne : ∀ x : List Nat, ¬ (store_read s0.dev 512 256 ++ x).getD 0 0
        = DEVICE_STATE_MAGIC := by
      intro x
      rw [store_read_head, hz]
      decide
    simp only [read_rpmb_device_state_real, read_rpmb_device_state_simulate, faithful,
      EFI_ERROR_SUCCESS, Bool.false_eq_true, if_false, RPMB_DEVICE_STATE_BLOCK_COUNT,
      RPMB_DEVICE_STATE_BLOCK_ADDR, RPMB_BLOCK_SIZE, Nat.one_mul, Nat.reduceMul, Nat.reducePow,
      Nat.reduceMod, ne_eq, hne, not_false_eq_true, if_true, and_self]

set_option maxRecDepth 100000 in
/-- Witness for C4: a block holding the magic and state 3 (written before), and
the zero-filled store. -/
theorem C4_device_state_validity_witness :
    ((read_rpmb_device_state_real (faithful false)
        (write_rpmb_device_state_real (faithful false) fresh 3).2).1 = EFI_SUCCESS ∧
      (read_rpmb_device_state_real (faithful false)
        (write_rpmb_device_state_real (faithful false) fresh 3).2).2.1 = some 3) ∧
    ((read_rpmb_device_state_real (faithful false) fresh).1 = EFI_NOT_FOUND ∧
      (read_rpmb_device_state_real (faithful false) fresh).2.1 = none) ∧
    ((read_rpmb_device_state_simulate (faithful false) fresh).1 = EFI_NOT_FOUND ∧
      (read_rpmb_device_state_simulate (faithful false) fresh).2.1 = none) :=
  ⟨((C4_device_state_validity (faithful false)
      (write_rpmb_device_state_real (faithful false) fresh 3).2 false fresh).1
        (by decide)).1.2 (by decide),
    ((C4_device_state_validity (faithful false) fresh false fresh).2.2 (fun _ => rfl)).1,
    ((C4_device_state_validity (faithful false) fresh false fresh).2.2 (fun _ => rfl)).2⟩

theorem bytes_at_length (l : List Nat) (off n : Nat) (h : off + n ≤ l.length) :
    (bytes_at l off n).length = n := by
  simp only [bytes_at, List.length_take, List.length_drop]
  omega

theorem take_memcpy (dst src : List Nat) (off : Nat) (h : off ≤ dst.length) :
    (memcpy dst off src).take (off + src.length) = dst.take off ++ src := by
  unfold memcpy
  apply List.take_left'
  rw [List.length_append, List.length_take]
  omega

/-- The copy loop never ends when the count does not fit the UINT8 counter. -/
theorem copy_keys_diverges (num_key : Nat) (kbuf : List Nat) (h : 255 < num_key) :
    ∀ (fuel i : Nat) (dst : List Nat), i < 256 → copy_keys fuel i num_key kbuf dst = none := by
  intro fuel
  induction fuel with
  | zero => intro i dst _; rfl
  | succ f ih =>
    intro i dst hi
    rw [copy_keys, if_pos (by omega)]
    exact ih _ _ (Nat.mod_lt _ (by decide))

/-- The copy loop ends within num_key - i iterations when the count fits. -/
theorem copy_keys_total (num_key : Nat) (kbuf : List Nat) (h : num_key ≤ 255) :
    ∀ (fuel i : Nat) (dst : List Nat), i ≤ num_key → num_key - i < fuel →
      ∃ keys, copy_keys fuel i num_key kbuf dst = some keys := by
  intro fuel
  induction fuel with
  | zero => intro i dst _ hf; omega
  | succ f ih =>
    intro i dst hi hf
    rw [copy_keys]
    by_cases hlt : i < num_key
    · rw [if_pos hlt, Nat.mod_eq_of_lt (by omega)]
      exact ih _ _ (by omega) (by omega)
    · rw [if_neg hlt]
      exact ⟨dst, rfl⟩

/-- What the copy loop leaves in the destination when it ends. -/
theorem copy_keys_result (num_key : Nat) (kbuf : List Nat) (h : num_key ≤ 255)
    (hk : num_key * RPMB_KEY_SIZE ≤ kbuf.length) :
    ∀ (fuel i : Nat) (dst keys : List Nat), i ≤ num_key →
      dst.length = num_key * RPMB_KEY_SIZE →
      dst.take (i * RPMB_KEY_SIZE) = kbuf.take (i * RPMB_KEY_SIZE) →
      copy_keys fuel i num_key kbuf dst = some keys →
      keys = kbuf.take (num_key * RPMB_KEY_SIZE) := by
  intro fuel
  induction fuel with
  | zero =>
    intro i dst keys _ _ _ hc
    simp [copy_keys] at hc
  | succ f ih =>
    intro i dst keys hi hlen htake hc
    rw [copy_keys] at hc
    by_cases hlt : i < num_key
    · rw [if_pos hlt, Nat.mod_eq_of_lt (by omega)] at hc
      have hsrc : (bytes_at kbuf (i * RPMB_KEY_SIZE) RPMB_KEY_SIZE).length = RPMB_KEY_SIZE := by
        apply bytes_at_length
        have : (i + 1) * RPMB_KEY_SIZE ≤ num_key * RPMB_KEY_SIZE :=
          Nat.mul_le_mul_right _ hlt
        rw [Nat.add_mul, Nat.one_mul] at this
        omega
      have hfit : i * RPMB_KEY_SIZE + RPMB_KEY_SIZE ≤ dst.length := by
        have : (i + 1) * RPMB_KEY_SIZE ≤ num_key * RPMB_KEY_SIZE :=
          Nat.mul_le_mul_right _ hlt
        rw [Nat.add_mul, Nat.one_mul] at this
        omega
      refine ih (i + 1) _ keys hlt ?_ ?_ hc
      · rw [memcpy_length _ _ _ (by rw [hsrc]; exact hfit), hlen]
      · have htm := take_memcpy dst (bytes_at kbuf (i * RPMB_KEY_SIZE) RPMB_KEY_SIZE)
          (i * RPMB_KEY_SIZE) (by omega)
        rw [hsrc] at htm
        rw [Nat.add_mul, Nat.one_mul, htm, htake, List.take_add, bytes_at]
    · rw [if_neg hlt] at hc
      have hin : i = num_key := by omega
      subst hin
      have : keys = dst := by
        injection hc with hc
        exact hc.symm
      rw [this, ← htake, List.take_of_length_le (by omega)]

/-- C5: the validation of set_rpmb_derived_key is immune to the wrap-around of
num_key * 32.  Provided the capacity RPMB_NUMBER_KEY times the key size fits
size_t, the call returns InvalidArgument (leaving the store as it was) when the
count exceeds the capacity, or the buffer is NULL, or the unwrapped product
num_key * 32 exceeds kbuf_len, and in no other case; in every other case it
does return when the copy loop is given enough iterations. -/
theorem C5_derived_key_validation (RPMB_NUMBER_KEY : Nat) (AllocatePool : Nat → Option (List Nat))
    (fuel : Nat) (ks : KeyStore) (kbuf : Option (List Nat)) (kbuf_len num_key : Nat)
    (hN : RPMB_NUMBER_KEY * RPMB_KEY_SIZE < 2 ^ 64) :
    ((num_key > RPMB_NUMBER_KEY ∨ kbuf = none ∨ num_key * RPMB_KEY_SIZE > kbuf_len) →
      set_rpmb_derived_key RPMB_NUMBER_KEY AllocatePool fuel ks kbuf kbuf_len num_key
        = some (EFI_INVALID_PARAMETER, ks)) ∧
    (¬ (num_key > RPMB_NUMBER_KEY ∨ kbuf = none ∨ num_key * RPMB_KEY_SIZE > kbuf_len) →
      (∀ r, set_rpmb_derived_key RPMB_NUMBER_KEY AllocatePool fuel ks kbuf kbuf_len num_key
        = some r → r.1 ≠ EFI_INVALID_PARAMETER) ∧
      (RPMB_NUMBER_KEY ≤ 255 → num_key < fuel →
        ∃ r, set_rpmb_derived_key RPMB_NUMBER_KEY AllocatePool fuel ks kbuf kbuf_len num_key
          = some r)) := by
  have hwrap : num_key ≤ RPMB_NUMBER_KEY →
      num_key * RPMB_KEY_SIZE % 2 ^ 64 = num_key * RPMB_KEY_SIZE := by
    intro hle
    apply Nat.mod_eq_of_lt
    exact lt_of_le_of_lt (Nat.mul_le_mul_right _ hle) hN
  refine ⟨fun hc => ?_, fun hc => ?_⟩
  · cases kbuf with
    | none => rfl
    | some kb =>
      by_cases hgt : num_key > RPMB_NUMBER_KEY
      · simp [set_rpmb_derived_key, hgt]
      · have hlen : num_key * RPMB_KEY_SIZE > kbuf_len := by
          rcases hc with h | h | h
          · exact absurd h hgt
          · exact Option.noConfusion h
          · exact h
        have hcond : num_key > RPMB_NUMBER_KEY ∨ num_key * RPMB_KEY_SIZE % 2 ^ 64 > kbuf_len := by
          right
          rw [hwrap (by omega)]
          exact hlen
        simp only [set_rpmb_derived_key, hcond, if_true]
  · cases kbuf with
    | none => exact absurd (Or.inr (Or.inl rfl)) hc
    | some kb =>
      have hle : num_key ≤ RPMB_NUMBER_KEY := by
        by_contra hgt
        exact hc (Or.inl (by omega))
      have hcond : ¬ (num_key > RPMB_NUMBER_KEY ∨
          num_key * RPMB_KEY_SIZE % 2 ^ 64 > kbuf_len) := by
        rw [hwrap hle]
        intro h
        rcases h with h | h
        · exact hc (Or.inl h)
        · exact hc (Or.inr (Or.inr h))
      simp only [set_rpmb_derived_key, hcond, if_false]
      refine ⟨fun r hr => ?_, fun h255 hf => ?_⟩
      · cases ha : AllocatePool (num_key * RPMB_KEY_SIZE % 2 ^ 64) with
        | none =>
          rw [ha] at hr
          dsimp only at hr
          injection hr with hr
          rw [← hr]
          show EFI_OUT_OF_RESOURCES ≠ EFI_INVALID_PARAMETER
          decide
        | some pool =>
          rw [ha] at hr
          dsimp only at hr
          cases hk : copy_keys fuel 0 num_key kb pool with
          | none =>
            rw [hk] at hr
            exact Option.noConfusion hr
          | some keys =>
            rw [hk] at hr
            dsimp only at hr
            injection hr with hr
            rw [← hr]
            show EFI_SUCCESS ≠ EFI_INVALID_PARAMETER
            decide
      · cases ha : AllocatePool (num_key * RPMB_KEY_SIZE % 2 ^ 64) with
        | none => exact ⟨_, rfl⟩
        | some pool =>
          obtain ⟨keys, hk⟩ := copy_keys_total num_key kb (by omega) fuel 0 pool
            (Nat.zero_le _) (by omega)
          simp only [hk]
          exact ⟨_, rfl⟩

/-- Witness for C5: capacity 4 and a 64-byte buffer; three keys are refused,
two keys are accepted. -/
theorem C5_derived_key_validation_witness :
    set_rpmb_derived_key 4 (fun n => some (List.replicate n 0)) 8 ⟨none, 0⟩
      (some (List.replicate 64 1)) 64 3 = some (EFI_INVALID_PARAMETER, ⟨none, 0⟩) ∧
    ∃ r, set_rpmb_derived_key 4 (fun n => some (List.replicate n 0)) 8 ⟨none, 0⟩
      (some (List.replicate 64 1)) 64 2 = some r :=
  ⟨(C5_derived_key_validation 4 (fun n => some (List.replicate n 0)) 8 ⟨none, 0⟩
      (some (List.replicate 64 1)) 64 3 (by decide)).1 (by decide),
    ((C5_derived_key_validation 4 (fun n => some (List.replicate n 0)) 8 ⟨none, 0⟩
      (some (List.replicate 64 1)) 64 2 (by decide)).2 (by decide)).2 (by decide) (by decide)⟩

/-- C6: derived-key store round trip.  get_rpmb_derived_key answers NotFound
while derived_key is NULL; after a call of set_rpmb_derived_key that returned
success, whatever the store held before, it answers success with the count
num_key and the first num_key * 32 bytes of the buffer; and the call of
set_rpmb_derived_key does return success for a valid request when the
allocation succeeds. -/
theorem C6_derived_key_round_trip (RPMB_NUMBER_KEY : Nat) (AllocatePool : Nat → Option (List Nat))
    (fuel : Nat) (ks : KeyStore) (kb : List Nat) (kbuf_len num_key : Nat)
    (halloc : ∀ n p, AllocatePool n = some p → p.length = n)
    (hbuf : kbuf_len ≤ kb.length) :
    (∀ n, get_rpmb_derived_key ⟨none, n⟩ true true = (EFI_NOT_FOUND, none)) ∧
    (∀ ks', set_rpmb_derived_key RPMB_NUMBER_KEY AllocatePool fuel ks (some kb) kbuf_len num_key
        = some (EFI_SUCCESS, ks') →
      get_rpmb_derived_key ks' true true
        = (EFI_SUCCESS, some (kb.take (num_key * RPMB_KEY_SIZE), num_key))) ∧
    (RPMB_NUMBER_KEY ≤ 255 → num_key ≤ RPMB_NUMBER_KEY → num_key * RPMB_KEY_SIZE ≤ kbuf_len →
      (AllocatePool (num_key * RPMB_KEY_SIZE)).isSome → num_key < fuel →
      ∃ ks', set_rpmb_derived_key RPMB_NUMBER_KEY AllocatePool fuel ks (some kb) kbuf_len num_key
        = some (EFI_SUCCESS, ks')) := by
  refine ⟨fun n => rfl, fun ks' hset => ?_, fun h255 hle hlen ha hf => ?_⟩
  · simp only [set_rpmb_derived_key] at hset
    split at hset
    · injection hset with hset
      injection hset with h1 _
      exact absurd h1.symm (by decide)
    · rename_i hcond
      cases hal : AllocatePool (num_key * RPMB_KEY_SIZE % 2 ^ 64) with
      | none =>
        rw [hal] at hset
        dsimp only at hset
        injection hset with hset
        injection hset with h1 _
        exact absurd h1.symm (by decide)
      | some pool =>
        rw [hal] at hset
        dsimp only at hset
        cases hk : copy_keys fuel 0 num_key kb pool with
        | none =>
          rw [hk] at hset
          exact Option.noConfusion hset
        | some keys =>
          rw [hk] at hset
          dsimp only at hset
          injection hset with hset
          injection hset with _ h2
          have h255 : num_key ≤ 255 := by
            by_contra hgt
            rw [copy_keys_diverges num_key kb (by omega) fuel 0 pool (by decide)] at hk
            exact Option.noConfusion hk
          have hmod : num_key * RPMB_KEY_SIZE % 2 ^ 64 = num_key * RPMB_KEY_SIZE := by
            apply Nat.mod_eq_of_lt
            simp only [RPMB_KEY_SIZE]
            omega
          rw [hmod] at hal hcond
          have hkeys := copy_keys_result num_key kb h255 (by omega) fuel 0 pool keys
            (Nat.zero_le _) (halloc _ _ hal) (by simp) hk
          rw [← h2]
          simp only [get_rpmb_derived_key, Bool.not_true, Bool.or_self, Bool.false_eq_true,
            if_false, hkeys, Nat.mod_eq_of_lt (show num_key < 256 by omega)]
  · have hmod : num_key * RPMB_KEY_SIZE % 2 ^ 64 = num_key * RPMB_KEY_SIZE := by
      apply Nat.mod_eq_of_lt
      simp only [RPMB_KEY_SIZE]
      omega
    have hcond : ¬ (num_key > RPMB_NUMBER_KEY ∨ num_key * RPMB_KEY_SIZE > kbuf_len) := by
      omega
    obtain ⟨pool, hal⟩ := Option.isSome_iff_exists.mp ha
    obtain ⟨keys, hk⟩ := copy_keys_total num_key kb (by omega) fuel 0 pool
      (Nat.zero_le _) (by omega)
    simp only [set_rpmb_derived_key, hcond, if_false, hmod, hal, hk]
    exact ⟨_, rfl⟩

/-- Witness for C6: two keys provisioned from a 64-byte buffer over an empty
store are returned by get_rpmb_derived_key. -/
theorem C6_derived_key_round_trip_witness :
    get_rpmb_derived_key ⟨none, 0⟩ true true = (EFI_NOT_FOUND, none) ∧
    ∃ ks', set_rpmb_derived_key 4 (fun n => some (List.replicate n 0)) 8 ⟨none, 0⟩
        (some (List.range 64)) 64 2 = some (EFI_SUCCESS, ks') ∧
      get_rpmb_derived_key ks' true true
        = (EFI_SUCCESS, some ((List.range 64).take (2 * RPMB_KEY_SIZE), 2)) := by
  have h := C6_derived_key_round_trip 4 (fun n => some (List.replicate n 0)) 8 ⟨none, 0⟩
    (List.range 64) 64 2
    (by intro n p hp; injection hp with hp; rw [← hp]; simp) (by decide)
  obtain ⟨ks', hs⟩ := h.2.2 (by decide) (by decide) (by decide) (by decide) (by decide)
  exact ⟨h.1 0, ks', hs, h.2.1 ks' hs⟩

/-- C7 (what the code does): in the simulated backend, when the read reports
EFI_NOT_FOUND, write_rpmb_rollback_index_simulate and
write_rpmb_keybox_magic_simulate issue no transport write and return
EFI_NOT_FOUND, not success: the EFI_ERROR test comes first and EFI_NOT_FOUND is
an error status, so the branch that forces success is never taken. -/
theorem C7_absent_region_write_returns_not_found {σ : Type} (T : Transport σ) (s : Rpmb σ)
    (i v offset : Nat) (buffer : List Nat) :
    ((T.emmc_simulate_read_rpmb_data s.dev (rollback_byte_offset i) s.rpmb_buffer 8).status
        = EFI_NOT_FOUND →
      (write_rpmb_rollback_index_simulate T s i v).1 = EFI_NOT_FOUND ∧
      (write_rpmb_rollback_index_simulate T s i v).1 ≠ EFI_SUCCESS ∧
      (write_rpmb_rollback_index_simulate T s i v).2.calls = s.calls) ∧
    ((T.emmc_simulate_read_rpmb_data s.dev (offset * RPMB_BLOCK_SIZE % 2 ^ 32) s.rpmb_buffer
        8).status = EFI_NOT_FOUND →
      (write_rpmb_keybox_magic_simulate T s offset buffer).1 = EFI_NOT_FOUND ∧
      (write_rpmb_keybox_magic_simulate T s offset buffer).1 ≠ EFI_SUCCESS ∧
      (write_rpmb_keybox_magic_simulate T s offset buffer).2.calls = s.calls) := by
  refine ⟨fun h => ?_, fun h => ?_⟩
  · simp only [write_rpmb_rollback_index_simulate, h, EFI_ERROR_NOT_FOUND, if_true]
    exact ⟨trivial, fun hc => EFI_SUCCESS_ne_NOT_FOUND hc.symm, trivial⟩
  · simp only [write_rpmb_keybox_magic_simulate, h, EFI_ERROR_NOT_FOUND, if_true]
    exact ⟨trivial, fun hc => EFI_SUCCESS_ne_NOT_FOUND hc.symm, trivial⟩

/-- Witness for C7: over a transport whose reads answer EFI_NOT_FOUND, writing
rollback index 5 and keybox magic at offset 1 both return EFI_NOT_FOUND. -/
theorem C7_absent_region_write_returns_not_found_witness :
    ((write_rpmb_rollback_index_simulate (answering EFI_NOT_FOUND EFI_SUCCESS false) blank 5
        42).1 = EFI_NOT_FOUND ∧
      (write_rpmb_rollback_index_simulate (answering EFI_NOT_FOUND EFI_SUCCESS false) blank 5
        42).1 ≠ EFI_SUCCESS ∧
      (write_rpmb_rollback_index_simulate (answering EFI_NOT_FOUND EFI_SUCCESS false) blank 5
        42).2.calls = blank.calls) ∧
    ((write_rpmb_keybox_magic_simulate (answering EFI_NOT_FOUND EFI_SUCCESS false) blank 1
        [1, 2, 3, 4, 5, 6, 7, 8]).1 = EFI_NOT_FOUND ∧
      (write_rpmb_keybox_magic_simulate (answering EFI_NOT_FOUND EFI_SUCCESS false) blank 1
        [1, 2, 3, 4, 5, 6, 7, 8]).1 ≠ EFI_SUCCESS ∧
      (write_rpmb_keybox_magic_simulate (answering EFI_NOT_FOUND EFI_SUCCESS false) blank 1
        [1, 2, 3, 4, 5, 6, 7, 8]).2.calls = blank.calls) :=
  ⟨(C7_absent_region_write_returns_not_found (answering EFI_NOT_FOUND EFI_SUCCESS false) blank
      5 42 1 [1, 2, 3, 4, 5, 6, 7, 8]).1 rfl,
    (C7_absent_region_write_returns_not_found (answering EFI_NOT_FOUND EFI_SUCCESS false) blank
      5 42 1 [1, 2, 3, 4, 5, 6, 7, 8]).2 rfl⟩

/-- C8: simulated backend, region absent, reads.  When the simulated read
reports EFI_NOT_FOUND, read_rollback_index returns success with value 0 and
read_keybox_magic returns success with eight zero bytes; any other error of
the read is returned unchanged and nothing is stored for the caller. -/
theorem C8_absent_region_reads {σ : Type} (T : Transport σ) (s : Rpmb σ) (i offset : Nat) :
    ((T.emmc_simulate_read_rpmb_data s.dev (rollback_byte_offset i) s.rpmb_buffer 8).status
        = EFI_NOT_FOUND →
      (read_rpmb_rollback_index_simulate T s i).1 = EFI_SUCCESS ∧
      (read_rpmb_rollback_index_simulate T s i).2.1 = some 0) ∧
    ((T.emmc_simulate_read_rpmb_data s.dev (offset * RPMB_BLOCK_SIZE % 2 ^ 32) s.rpmb_buffer
        8).status = EFI_NOT_FOUND →
      (read_rpmb_keybox_magic_simulate T s offset).1 = EFI_SUCCESS ∧
      (read_rpmb_keybox_magic_simulate T s offset).2.1 = some [0, 0, 0, 0, 0, 0, 0, 0]) ∧
    ((T.emmc_simulate_read_rpmb_data s.dev (rollback_byte_offset i) s.rpmb_buffer 8).status
        ≠ EFI_NOT_FOUND →
      EFI_ERROR (T.emmc_simulate_read_rpmb_data s.dev (rollback_byte_offset i) s.rpmb_buffer
        8).status = true →
      (read_rpmb_rollback_index_simulate T s i).1
        = (T.emmc_simulate_read_rpmb_data s.dev (rollback_byte_offset i) s.rpmb_buffer
          8).status ∧
      (read_rpmb_rollback_index_simulate T s i).2.1 = none) ∧
    ((T.emmc_simulate_read_rpmb_data s.dev (offset * RPMB_BLOCK_SIZE % 2 ^ 32) s.rpmb_buffer
        8).status ≠ EFI_NOT_FOUND →
      EFI_ERROR (T.emmc_simulate_read_rpmb_data s.dev (offset * RPMB_BLOCK_SIZE % 2 ^ 32)
        s.rpmb_buffer 8).status = true →
      (read_rpmb_keybox_magic_simulate T s offset).1
        = (T.emmc_simulate_read_rpmb_data s.dev (offset * RPMB_BLOCK_SIZE % 2 ^ 32)
          s.rpmb_buffer 8).status ∧
      (read_rpmb_keybox_magic_simulate T s offset).2.1 = none) := by
  refine ⟨fun h => ?_, fun h => ?_, fun hne he => ?_, fun hne he => ?_⟩
  · simp only [read_rpmb_rollback_index_simulate, h, if_true, and_self]
  · simp only [read_rpmb_keybox_magic_simulate, h, if_true, List.replicate, and_self]
  · simp only [read_rpmb_rollback_index_simulate, hne, if_false, he, if_true, and_self]
  · simp only [read_rpmb_keybox_magic_simulate, hne, if_false, he, if_true, and_self]

/-- Witness for C8: reads answering EFI_NOT_FOUND give zero values, reads
answering EFI_INVALID_PARAMETER give that error back. -/
theorem C8_absent_region_reads_witness :
    ((read_rpmb_rollback_index_simulate (answering EFI_NOT_FOUND EFI_SUCCESS false) blank 5).1
        = EFI_SUCCESS ∧
      (read_rpmb_rollback_index_simulate (answering EFI_NOT_FOUND EFI_SUCCESS false) blank
        5).2.1 = some 0) ∧
    ((read_rpmb_keybox_magic_simulate (answering EFI_NOT_FOUND EFI_SUCCESS false) blank 1).1
        = EFI_SUCCESS ∧
      (read_rpmb_keybox_magic_simulate (answering EFI_NOT_FOUND EFI_SUCCESS false) blank
        1).2.1 = some [0, 0, 0, 0, 0, 0, 0, 0]) ∧
    ((read_rpmb_rollback_index_simulate (answering EFI_INVALID_PARAMETER EFI_SUCCESS false)
        blank 5).1 = EFI_INVALID_PARAMETER ∧
      (read_rpmb_rollback_index_simulate (answering EFI_INVALID_PARAMETER EFI_SUCCESS false)
        blank 5).2.1 = none) ∧
    ((read_rpmb_keybox_magic_simulate (answering EFI_INVALID_PARAMETER EFI_SUCCESS false)
        blank 1).1 = EFI_INVALID_PARAMETER ∧
      (read_rpmb_keybox_magic_simulate (answering EFI_INVALID_PARAMETER EFI_SUCCESS false)
        blank 1).2.1 = none) :=
  ⟨(C8_absent_region_reads (answering EFI_NOT_FOUND EFI_SUCCESS false) blank 5 1).1 rfl,
    (C8_absent_region_reads (answering EFI_NOT_FOUND EFI_SUCCESS false) blank 5 1).2.1 rfl,
    (C8_absent_region_reads (answering EFI_INVALID_PARAMETER EFI_SUCCESS false) blank 5
      1).2.2.1 (by decide) (by decide),
    (C8_absent_region_reads (answering EFI_INVALID_PARAMETER EFI_SUCCESS false) blank 5
      1).2.2.2 (by decide) (by decide)⟩

/-- C9: simulated backend, region absent, device state.  When the simulated
read reports EFI_NOT_FOUND, write_device_state returns success without issuing a
transport write, and read_device_state returns EFI_NOT_FOUND and stores no
state for the caller. -/
theorem C9_absent_region_device_state {σ : Type} (T : Transport σ) (s : Rpmb σ) (st : Nat)
    (h : (T.emmc_simulate_read_rpmb_data s.dev
      (RPMB_DEVICE_STATE_BLOCK_ADDR * RPMB_BLOCK_SIZE % 2 ^ 32) s.rpmb_buffer
      RPMB_BLOCK_SIZE).status = EFI_NOT_FOUND) :
    ((write_rpmb_device_state_simulate T s st).1 = EFI_SUCCESS ∧
      (write_rpmb_device_state_simulate T s st).2.calls = s.calls) ∧
    ((read_rpmb_device_state_simulate T s).1 = EFI_NOT_FOUND ∧
      (read_rpmb_device_state_simulate T s).2.1 = none) := by
  simp only [write_rpmb_device_state_simulate, read_rpmb_device_state_simulate, h,
    EFI_ERROR_NOT_FOUND, if_true, and_self]

/-- Witness for C9 over a transport whose reads answer EFI_NOT_FOUND. -/
theorem C9_absent_region_device_state_witness :
    ((write_rpmb_device_state_simulate (answering EFI_NOT_FOUND EFI_SUCCESS false) blank 3).1
        = EFI_SUCCESS ∧
      (write_rpmb_device_state_simulate (answering EFI_NOT_FOUND EFI_SUCCESS false) blank
        3).2.calls = blank.calls) ∧
    ((read_rpmb_device_state_simulate (answering EFI_NOT_FOUND EFI_SUCCESS false) blank).1
        = EFI_NOT_FOUND ∧
      (read_rpmb_device_state_simulate (answering EFI_NOT_FOUND EFI_SUCCESS false) blank).2.1
        = none) :=
  C9_absent_region_device_state (answering EFI_NOT_FOUND EFI_SUCCESS false) blank 3 rfl

/-- C10 (what the code does): under enforced secure boot erase_rpmb_all_blocks
issues exactly one authenticated write with block count 10 at block address 0,
returns the error of that write if it fails and success otherwise; the buffer
it hands over is the 256-byte scratch buffer rpmb_buffer with whatever content
earlier operations left in it, not a zeroed one. -/
theorem C10_erase_hands_over_scratch_buffer {σ : Type} (T : Transport σ) (s : Rpmb σ)
    (hsb : T.is_eom_and_secureboot_enabled s.dev = true) :
    (erase_rpmb_all_blocks T s).2.calls
      = s.calls ++ [Call.write RPMB_ALL_BLOCK_TOTAL_COUNT 0 s.rpmb_buffer s.rpmb_key] ∧
    (erase_rpmb_all_blocks T s).2.rpmb_buffer = s.rpmb_buffer ∧
    (EFI_ERROR (T.emmc_write_rpmb_data s.dev RPMB_ALL_BLOCK_TOTAL_COUNT 0 s.rpmb_buffer
        s.rpmb_key).status = true →
      (erase_rpmb_all_blocks T s).1 = (T.emmc_write_rpmb_data s.dev RPMB_ALL_BLOCK_TOTAL_COUNT
        0 s.rpmb_buffer s.rpmb_key).status) ∧
    (EFI_ERROR (T.emmc_write_rpmb_data s.dev RPMB_ALL_BLOCK_TOTAL_COUNT 0 s.rpmb_buffer
        s.rpmb_key).status = false →
      (erase_rpmb_all_blocks T s).1 = EFI_SUCCESS) := by
  refine ⟨?_, ?_, fun he => ?_, fun he => ?_⟩
  · simp only [erase_rpmb_all_blocks, hsb, if_true]
    split <;> rfl
  · simp only [erase_rpmb_all_blocks, hsb, if_true]
    split <;> rfl
  · simp only [erase_rpmb_all_blocks, hsb, if_true, he]
  · simp only [erase_rpmb_all_blocks, hsb, if_true, he, Bool.false_eq_true, if_false]

set_option maxRecDepth 100000 in
/-- Witness for C10: after write_rpmb_device_state_real(3) the erase under
enforced secure boot hands over a 256-byte buffer that starts with 0xDC 0x03. -/
theorem C10_erase_hands_over_scratch_buffer_witness :
    ((erase_rpmb_all_blocks (faithful true) after_device_state_write).2.calls
      = after_device_state_write.calls ++ [Call.write RPMB_ALL_BLOCK_TOTAL_COUNT 0
          after_device_state_write.rpmb_buffer after_device_state_write.rpmb_key]) ∧
    after_device_state_write.rpmb_buffer.length = 256 ∧
    after_device_state_write.rpmb_buffer.take 3 = [0xDC, 3, 0] ∧
    after_device_state_write.rpmb_buffer ≠ List.replicate 256 0 :=
  ⟨(C10_erase_hands_over_scratch_buffer (faithful true) after_device_state_write rfl).1,
    by decide, by decide, by decide⟩

/-! ## Erase loop -/

theorem erase_calls_succ (buf : List Nat) (i n : Nat) :
    erase_calls buf i (n + 1)
      = Call.sim_write (i * RPMB_BLOCK_SIZE % 2 ^ 32) buf RPMB_BLOCK_SIZE
        :: erase_calls buf (i + 1) n := by
  unfold erase_calls
  rw [List.range_succ_eq_map, List.map_cons, List.map_map, Nat.add_zero]
  refine congrArg (List.cons _) ?_
  apply List.map_congr_left
  intro j _
  simp only [Function.comp, Nat.succ_eq_add_one]
  rw [show i + (j + 1) = i + 1 + j by omega]

theorem erase_status_succ {σ : Type} (T : Transport σ) (buf : List Nat) (j i : Nat) (dev : σ) :
    erase_status T buf (j + 1) i dev
      = erase_status T buf j (i + 1)
        (T.emmc_simulate_write_rpmb_data dev (i * RPMB_BLOCK_SIZE % 2 ^ 32) buf
          RPMB_BLOCK_SIZE).dev := by
  simp only [erase_status, erase_dev]
  rw [show i + (j + 1) = i + 1 + j by omega]

/-- When the first n writes of the loop succeed, the loop issues exactly these
n writes, ends on the device they leave and returns no error. -/
theorem erase_loop_all_succeed {σ : Type} (T : Transport σ) :
    ∀ (n i : Nat) (ret : EFI_STATUS) (s : Rpmb σ),
      (∀ j, j < n → EFI_ERROR (erase_status T s.rpmb_buffer j i s.dev) = false) →
      (erase_simulate_loop T n i ret s).2.calls = s.calls ++ erase_calls s.rpmb_buffer i n ∧
      (erase_simulate_loop T n i ret s).2.dev = erase_dev T s.rpmb_buffer n i s.dev ∧
      (erase_simulate_loop T n i ret s).2.rpmb_buffer = s.rpmb_buffer ∧
      (EFI_ERROR ret = false → EFI_ERROR (erase_simulate_loop T n i ret s).1 = false) := by
  intro n
  induction n with
  | zero =>
    intro i ret s _
    simp [erase_simulate_loop, erase_calls, erase_dev]
  | succ n ih =>
    intro i ret s h
    have h0 : EFI_ERROR (T.emmc_simulate_write_rpmb_data s.dev (i * RPMB_BLOCK_SIZE % 2 ^ 32)
        s.rpmb_buffer RPMB_BLOCK_SIZE).status = false := h 0 (Nat.succ_pos n)
    have hih := ih (i + 1)
      (T.emmc_simulate_write_rpmb_data s.dev (i * RPMB_BLOCK_SIZE % 2 ^ 32) s.rpmb_buffer
        RPMB_BLOCK_SIZE).status
      { s with dev := (T.emmc_simulate_write_rpmb_data s.dev (i * RPMB_BLOCK_SIZE % 2 ^ 32)
          s.rpmb_buffer RPMB_BLOCK_SIZE).dev,
               calls := s.calls ++ [Call.sim_write (i * RPMB_BLOCK_SIZE % 2 ^ 32) s.rpmb_buffer
                 RPMB_BLOCK_SIZE] }
      (by
        intro j hj
        have := h (j + 1) (Nat.succ_lt_succ hj)
        rwa [erase_status_succ] at this)
    simp only [erase_simulate_loop, h0, Bool.false_eq_true, if_false]
    refine ⟨?_, ?_, ?_, fun _ => hih.2.2.2 h0⟩
    · rw [hih.1, erase_calls_succ, List.append_assoc, List.singleton_append]
    · rw [hih.2.1, erase_dev]
    · rw [hih.2.2.1]

/-- When write number k (counted from 0) is the first to fail, the loop returns
its status after issuing exactly the writes 0..k. -/
theorem erase_loop_first_failure {σ : Type} (T : Transport σ) :
    ∀ (n i : Nat) (ret : EFI_STATUS) (s : Rpmb σ) (k : Nat), k < n →
      (∀ j, j < k → EFI_ERROR (erase_status T s.rpmb_buffer j i s.dev) = false) →
      EFI_ERROR (erase_status T s.rpmb_buffer k i s.dev) = true →
      (erase_simulate_loop T n i ret s).1 = erase_status T s.rpmb_buffer k i s.dev ∧
      (erase_simulate_loop T n i ret s).2.calls
        = s.calls ++ erase_calls s.rpmb_buffer i (k + 1) := by
  intro n
  induction n with
  | zero => intro i ret s k hk; omega
  | succ n ih =>
    intro i ret s k hk hok hfail
    cases k with
    | zero =>
      have h0 : EFI_ERROR (T.emmc_simulate_write_rpmb_data s.dev
          (i * RPMB_BLOCK_SIZE % 2 ^ 32) s.rpmb_buffer RPMB_BLOCK_SIZE).status = true := hfail
      simp only [erase_simulate_loop, h0, if_true]
      exact ⟨rfl, by rw [erase_calls_succ]; rfl⟩
    | succ k =>
      have h0 : EFI_ERROR (T.emmc_simulate_write_rpmb_data s.dev
          (i * RPMB_BLOCK_SIZE % 2 ^ 32) s.rpmb_buffer RPMB_BLOCK_SIZE).status = false :=
        hok 0 (Nat.succ_pos k)
      have hih := ih (i + 1)
        (T.emmc_simulate_write_rpmb_data s.dev (i * RPMB_BLOCK_SIZE % 2 ^ 32) s.rpmb_buffer
          RPMB_BLOCK_SIZE).status
        { s with dev := (T.emmc_simulate_write_rpmb_data s.dev (i * RPMB_BLOCK_SIZE % 2 ^ 32)
            s.rpmb_buffer RPMB_BLOCK_SIZE).dev,
                 calls := s.calls ++ [Call.sim_write (i * RPMB_BLOCK_SIZE % 2 ^ 32)
                   s.rpmb_buffer RPMB_BLOCK_SIZE] }
        k (by omega)
        (by
          intro j hj
          have := hok (j + 1) (Nat.succ_lt_succ hj)
          rwa [erase_status_succ] at this)
        (by rwa [erase_status_succ] at hfail)
      simp only [erase_simulate_loop, h0, Bool.false_eq_true, if_false]
      refine ⟨?_, ?_⟩
      · rw [hih.1, erase_status_succ]
      · rw [hih.2, erase_calls_succ s.rpmb_buffer i (k + 1), List.append_assoc,
          List.singleton_append]

theorem erase_calls_region (buf : List Nat) (n : Nat) (hn : n ≤ 10) :
    erase_calls buf 0 n = (List.range n).map fun j => Call.sim_write (j * 256) buf 256 := by
  unfold erase_calls
  apply List.map_congr_left
  intro j hj
  have hj' : j < n := List.mem_range.mp hj
  simp only [RPMB_BLOCK_SIZE, Nat.zero_add]
  rw [Nat.mod_eq_of_lt (by omega)]

theorem erase_rpmb_all_blocks_simulated {σ : Type} (T : Transport σ) (s : Rpmb σ)
    (hsb : T.is_eom_and_secureboot_enabled s.dev = false) :
    erase_rpmb_all_blocks T s
      = if EFI_ERROR (erase_simulate_loop T 10 0 EFI_SUCCESS
            { s with rpmb_buffer := List.replicate 256 0 }).1 then
          erase_simulate_loop T 10 0 EFI_SUCCESS { s with rpmb_buffer := List.replicate 256 0 }
        else
          (EFI_SUCCESS, (erase_simulate_loop T 10 0 EFI_SUCCESS
            { s with rpmb_buffer := List.replicate 256 0 }).2) := by
  simp only [erase_rpmb_all_blocks, hsb, Bool.false_eq_true, if_false,
    erase_simulate_rpmb_all_blocks, RPMB_ALL_BLOCK_TOTAL_COUNT, RPMB_BLOCK_SIZE]

/-- C11: erase_rpmb_all_blocks with secure boot not enforced, any transport.
When all ten simulated writes succeed, exactly ten writes are issued, in order,
each of 256 zero bytes, at byte addresses 0, 256, ..., 2304, and success is
returned.  When write number k (counted from 1) is the first to fail, its error
is returned and exactly the writes 1..k were issued, none for a later block. -/
theorem C11_erase_simulated {σ : Type} (T : Transport σ) (s : Rpmb σ)
    (hsb : T.is_eom_and_secureboot_enabled s.dev = false) :
    ((∀ j, j < 10 → EFI_ERROR (erase_status T (List.replicate 256 0) j 0 s.dev) = false) →
      (erase_rpmb_all_blocks T s).1 = EFI_SUCCESS ∧
      (erase_rpmb_all_blocks T s).2.calls = s.calls ++
        (List.range 10).map fun j => Call.sim_write (j * 256) (List.replicate 256 0) 256) ∧
    (∀ k, 1 ≤ k → k ≤ 10 →
      (∀ j, j < k - 1 → EFI_ERROR (erase_status T (List.replicate 256 0) j 0 s.dev) = false) →
      EFI_ERROR (erase_status T (List.replicate 256 0) (k - 1) 0 s.dev) = true →
      (erase_rpmb_all_blocks T s).1 = erase_status T (List.replicate 256 0) (k - 1) 0 s.dev ∧
      (erase_rpmb_all_blocks T s).2.calls = s.calls ++
        (List.range k).map fun j => Call.sim_write (j * 256) (List.replicate 256 0) 256) := by
  rw [erase_rpmb_all_blocks_simulated T s hsb]
  refine ⟨fun hall => ?_, fun k hk1 hk10 hok hfail => ?_⟩
  · have h := erase_loop_all_succeed T 10 0 EFI_SUCCESS
      { s with rpmb_buffer := List.replicate 256 0 } hall
    rw [h.2.2.2 EFI_ERROR_SUCCESS]
    simp only [Bool.false_eq_true, if_false, true_and]
    rw [h.1, erase_calls_region _ 10 (Nat.le_refl _)]
  · have h := erase_loop_first_failure T 10 0 EFI_SUCCESS
      { s with rpmb_buffer := List.replicate 256 0 } (k - 1) (by omega) hok hfail
    have hk : k - 1 + 1 = k := by omega
    rw [hk] at h
    rw [h.1, hfail]
    simp only [if_true]
    rw [h.1, h.2, erase_calls_region _ k hk10]
    exact ⟨rfl, rfl⟩

/-- Witness for C11: over the faithful store all ten writes succeed; over the
transport that fails the third simulated write, three writes are issued. -/
theorem C11_erase_simulated_witness :
    ((erase_rpmb_all_blocks (faithful false) fresh).1 = EFI_SUCCESS ∧
      (erase_rpmb_all_blocks (faithful false) fresh).2.calls = fresh.calls ++
        (List.range 10).map fun j => Call.sim_write (j * 256) (List.replicate 256 0) 256) ∧
    ((erase_rpmb_all_blocks (counting 3 EFI_OUT_OF_RESOURCES) uncounted).1
        = erase_status (counting 3 EFI_OUT_OF_RESOURCES) (List.replicate 256 0) (3 - 1) 0
          uncounted.dev ∧
      (erase_rpmb_all_blocks (counting 3 EFI_OUT_OF_RESOURCES) uncounted).2.calls
        = uncounted.calls ++
          (List.range 3).map fun j => Call.sim_write (j * 256) (List.replicate 256 0) 256) :=
  ⟨(C11_erase_simulated (faithful false) fresh rfl).1 (fun _ _ => rfl),
    (C11_erase_simulated (counting 3 EFI_OUT_OF_RESOURCES) uncounted rfl).2 3 (by decide)
      (by decide) (by decide) (by decide)⟩

/-- C12: is_rpmb_programed_real queries the counter with the active key and
returns false exactly when that query answers an error status together with the
result code for no authentication key programmed; for every other combination
of status and result code it returns true. -/
theorem C12_is_programmed_conservative {σ : Type} (T : Transport σ) (s : Rpmb σ) :
    ((is_rpmb_programed_real T s).1 = false ↔
      (EFI_ERROR (T.emmc_get_counter s.dev s.rpmb_key).status = true ∧
        (T.emmc_get_counter s.dev s.rpmb_key).result = RPMB_RES_NO_AUTH_KEY_PROGRAM)) ∧
    ((is_rpmb_programed_real T s).1 = true ↔
      (EFI_ERROR (T.emmc_get_counter s.dev s.rpmb_key).status = false ∨
        (T.emmc_get_counter s.dev s.rpmb_key).result ≠ RPMB_RES_NO_AUTH_KEY_PROGRAM)) := by
  unfold is_rpmb_programed_real
  cases he : EFI_ERROR (T.emmc_get_counter s.dev s.rpmb_key).status <;>
    by_cases hr : (T.emmc_get_counter s.dev s.rpmb_key).result = RPMB_RES_NO_AUTH_KEY_PROGRAM <;>
    simp [hr, he]

/-- The keybox-magic writes skip a write of identical bytes, as the
rollback-index writes do: when the read succeeds and the first eight bytes it
returns equal the eight bytes to store, success is returned and no transport
write is issued, in both backends. -/
theorem keybox_magic_write_avoidance {σ : Type} (T : Transport σ) (s : Rpmb σ)
    (offset : Nat) (buffer : List Nat) :
    (EFI_ERROR (T.emmc_read_rpmb_data s.dev 1 offset s.rpmb_buffer s.rpmb_key).status = false →
      bytes_at buffer 0 8
        = bytes_at (T.emmc_read_rpmb_data s.dev 1 offset s.rpmb_buffer s.rpmb_key).buffer 0 8 →
      (write_rpmb_keybox_magic_real T s offset buffer).1 = EFI_SUCCESS ∧
      (write_rpmb_keybox_magic_real T s offset buffer).2.calls = s.calls) ∧
    (EFI_ERROR (T.emmc_simulate_read_rpmb_data s.dev (offset * RPMB_BLOCK_SIZE % 2 ^ 32)
        s.rpmb_buffer 8).status = false →
      bytes_at buffer 0 8
        = bytes_at (T.emmc_simulate_read_rpmb_data s.dev (offset * RPMB_BLOCK_SIZE % 2 ^ 32)
          s.rpmb_buffer 8).buffer 0 8 →
      (write_rpmb_keybox_magic_simulate T s offset buffer).1 = EFI_SUCCESS ∧
      (write_rpmb_keybox_magic_simulate T s offset buffer).2.calls = s.calls) := by
  refine ⟨fun hrd heq => ?_, fun hrd heq => ?_⟩
  · simp only [write_rpmb_keybox_magic_real, hrd, Bool.false_eq_true, if_false, heq, if_true,
      and_self]
  · have hnf := not_error_ne_NOT_FOUND _ hrd
    simp only [write_rpmb_keybox_magic_simulate, hrd, hnf, Bool.false_eq_true, if_false, heq,
      if_true, and_self]

/-- C13 (what the code does): the device-state write has no write-avoidance.
In both backends, for any transport, whenever the read of the device-state
block succeeds, write_device_state(st) issues exactly one transport write of
the block with byte 0 set to 0xDC and byte 1 set to st, whatever the block
held before (so also when it already holds these bytes), and returns success
when that write succeeds. -/
theorem C13_device_state_always_writes {σ : Type} (T : Transport σ) (s : Rpmb σ) (st : Nat) :
    (EFI_ERROR (T.emmc_read_rpmb_data s.dev RPMB_DEVICE_STATE_BLOCK_COUNT
        RPMB_DEVICE_STATE_BLOCK_ADDR s.rpmb_buffer s.rpmb_key).status = false →
      (write_rpmb_device_state_real T s st).2.calls = s.calls ++
        [Call.write 1 2
          (((T.emmc_read_rpmb_data s.dev RPMB_DEVICE_STATE_BLOCK_COUNT
            RPMB_DEVICE_STATE_BLOCK_ADDR s.rpmb_buffer s.rpmb_key).buffer.set 0
              DEVICE_STATE_MAGIC).set 1 st) s.rpmb_key] ∧
      (EFI_ERROR (T.emmc_write_rpmb_data
          (T.emmc_read_rpmb_data s.dev RPMB_DEVICE_STATE_BLOCK_COUNT
            RPMB_DEVICE_STATE_BLOCK_ADDR s.rpmb_buffer s.rpmb_key).dev
          RPMB_DEVICE_STATE_BLOCK_COUNT RPMB_DEVICE_STATE_BLOCK_ADDR
          (((T.emmc_read_rpmb_data s.dev RPMB_DEVICE_STATE_BLOCK_COUNT
            RPMB_DEVICE_STATE_BLOCK_ADDR s.rpmb_buffer s.rpmb_key).buffer.set 0
              DEVICE_STATE_MAGIC).set 1 st) s.rpmb_key).status = false →
        (write_rpmb_device_state_real T s st).1 = EFI_SUCCESS)) ∧
    (EFI_ERROR (T.emmc_simulate_read_rpmb_data s.dev
        (RPMB_DEVICE_STATE_BLOCK_ADDR * RPMB_BLOCK_SIZE % 2 ^ 32) s.rpmb_buffer
        RPMB_BLOCK_SIZE).status = false →
      (write_rpmb_device_state_simulate T s st).2.calls = s.calls ++
        [Call.sim_write 512
          (((T.emmc_simulate_read_rpmb_data s.dev
            (RPMB_DEVICE_STATE_BLOCK_ADDR * RPMB_BLOCK_SIZE % 2 ^ 32) s.rpmb_buffer
            RPMB_BLOCK_SIZE).buffer.set 0 DEVICE_STATE_MAGIC).set 1 st) 256] ∧
      (EFI_ERROR (T.emmc_simulate_write_rpmb_data
          (T.emmc_simulate_read_rpmb_data s.dev
            (RPMB_DEVICE_STATE_BLOCK_ADDR * RPMB_BLOCK_SIZE % 2 ^ 32) s.rpmb_buffer
            RPMB_BLOCK_SIZE).dev
          (RPMB_DEVICE_STATE_BLOCK_ADDR * RPMB_BLOCK_SIZE % 2 ^ 32)
          (((T.emmc_simulate_read_rpmb_data s.dev
            (RPMB_DEVICE_STATE_BLOCK_ADDR * RPMB_BLOCK_SIZE % 2 ^ 32) s.rpmb_buffer
            RPMB_BLOCK_SIZE).buffer.set 0 DEVICE_STATE_MAGIC).set 1 st)
          RPMB_BLOCK_SIZE).status = false →
        (write_rpmb_device_state_simulate T s st).1 = EFI_SUCCESS)) := by
  refine ⟨fun hrd => ⟨?_, fun hwr => ?_⟩, fun hrd => ⟨?_, fun hwr => ?_⟩⟩
  · simp only [write_rpmb_device_state_real, hrd, Bool.false_eq_true, if_false]
    split <;> rfl
  · simp only [write_rpmb_device_state_real, hrd, Bool.false_eq_true, if_false, hwr]
  · have hnf := not_error_ne_NOT_FOUND _ hrd
    simp only [write_rpmb_device_state_simulate, hrd, hnf, Bool.false_eq_true, if_false]
    split <;> rfl
  · have hnf := not_error_ne_NOT_FOUND _ hrd
    simp only [write_rpmb_device_state_simulate, hrd, hnf, Bool.false_eq_true, if_false, hwr]

set_option maxRecDepth 100000 in
/-- Witness for C13: with the device-state block already holding 0xDC and state
3, write_device_state(3) appends one write to the log in both backends, and
the block it hands to the transport is identical to the stored one. -/
theorem C13_device_state_always_writes_witness :
    (∃ c, (write_rpmb_device_state_real (faithful true) after_device_state_write 3).2.calls
      = after_device_state_write.calls ++ [c]) ∧
    (∃ c, (write_rpmb_device_state_simulate (faithful false)
        after_device_state_write_simulate 3).2.calls
      = after_device_state_write_simulate.calls ++ [c]) ∧
    ((store_read after_device_state_write.dev 512 2 = [0xDC, 3] ∧
      (write_rpmb_device_state_real (faithful true) after_device_state_write 3).1
        = EFI_SUCCESS ∧
      (write_rpmb_device_state_real (faithful true) after_device_state_write 3).2.calls
        = after_device_state_write.calls ++
          [Call.write 1 2 (store_read after_device_state_write.dev 512 256)
            after_device_state_write.rpmb_key] ∧
      (write_rpmb_device_state_real (faithful true) after_device_state_write 3).2.calls
        ≠ after_device_state_write.calls) ∧
    (store_read after_device_state_write_simulate.dev 512 2 = [0xDC, 3] ∧
      (write_rpmb_device_state_simulate (faithful false) after_device_state_write_simulate 3).1
        = EFI_SUCCESS ∧
      (write_rpmb_device_state_simulate (faithful false)
          after_device_state_write_simulate 3).2.calls
        = after_device_state_write_simulate.calls ++
          [Call.sim_write 512 (store_read after_device_state_write_simulate.dev 512 256) 256] ∧
      (write_rpmb_device_state_simulate (faithful false)
          after_device_state_write_simulate 3).2.calls
        ≠ after_device_state_write_simulate.calls)) :=
  ⟨⟨_, ((C13_device_state_always_writes (faithful true) after_device_state_write 3).1
      rfl).1⟩,
    ⟨_, ((C13_device_state_always_writes (faithful false) after_device_state_write_simulate
      3).2 rfl).1⟩,
    by decide⟩

/-! ## Frame of a rollback-index write over the faithful store -/

theorem store_write_outside (m : Store) (base : Nat) (d : List Nat) (a : Nat)
    (h : a < base ∨ base + d.length ≤ a) : store_write m base d a = m a := by
  unfold store_write
  rw [if_neg (by omega)]

theorem store_write_inside (m : Store) (base : Nat) (d : List Nat) (a : Nat)
    (h : base ≤ a ∧ a < base + d.length) : store_write m base d a = d.getD (a - base) 0 := by
  unfold store_write
  rw [if_pos h]

theorem memcpy_getD_outside (dst src : List Nat) (off k : Nat)
    (hfit : off + src.length ≤ dst.length) (hk : k < off ∨ off + src.length ≤ k) :
    (memcpy dst off src).getD k 0 = dst.getD k 0 := by
  unfold memcpy
  simp only [List.getD_eq_getElem?_getD]
  congr 1
  rcases hk with hk | hk
  · rw [List.append_assoc, List.getElem?_append_left (by rw [List.length_take]; omega),
      List.getElem?_take_of_lt hk]
  · rw [List.getElem?_append_right (by simp only [List.length_append, List.length_take]; omega),
      List.getElem?_drop]
    congr 1
    simp only [List.length_append, List.length_take]
    omega

theorem take_getD (l : List Nat) (n k : Nat) (hk : k < n) :
    (l.take n).getD k 0 = l.getD k 0 := by
  simp only [List.getD_eq_getElem?_getD, List.getElem?_take_of_lt hk]

theorem store_read_append_getD (m : Store) (base n k : Nat) (x : List Nat) (hk : k < n) :
    (store_read m base n ++ x).getD k 0 = m (base + k) := by
  simp only [List.getD_eq_getElem?_getD]
  rw [List.getElem?_append_left (by rw [store_read_length]; exact hk)]
  simp [store_read, hk]

theorem bytes_at_store_read (m : Store) (base n off len : Nat) (h : off + len ≤ n) :
    bytes_at (store_read m base n) off len = store_read m (base + off) len := by
  apply List.ext_getElem
  · rw [bytes_at_length _ _ _ (by rw [store_read_length]; exact h), store_read_length]
  · intro k h1 h2
    simp [bytes_at, store_read, Nat.add_assoc]

theorem store_read_congr (m m' : Store) (base n : Nat)
    (h : ∀ k, k < n → m' (base + k) = m (base + k)) :
    store_read m' base n = store_read m base n := by
  unfold store_read
  apply List.map_congr_left
  intro k hk
  exact h k (List.mem_range.mp hk)

/-- A real rollback-index write over the faithful store changes no byte
outside the eight bytes at the offset of the index in its block. -/
theorem write_real_frame (sb : Bool) (s : Rpmb Store) (i v a : Nat)
    (ha : a < rollback_blk_addr i * 256 + rollback_blk_offset i ∨
      rollback_blk_addr i * 256 + rollback_blk_offset i + 8 ≤ a) :
    (write_rpmb_rollback_index_real (faithful sb) s i v).2.dev a = s.dev a := by
  have hoff := rollback_blk_offset_le i
  simp only [write_rpmb_rollback_index_real, faithful, EFI_ERROR_SUCCESS, Bool.false_eq_true,
    if_false, Nat.one_mul]
  split
  · rfl
  · dsimp only
    have hfit : rollback_blk_offset i + (UINT64_bytes v).length ≤
        (store_read s.dev (rollback_blk_addr i * 256) 256 ++
          List.drop 256 s.rpmb_buffer).length := by
      simp only [UINT64_bytes_length, List.length_append, store_read_length]
      omega
    have hlen : 256 ≤ (memcpy (store_read s.dev (rollback_blk_addr i * 256) 256 ++
        List.drop 256 s.rpmb_buffer) (rollback_blk_offset i) (UINT64_bytes v)).length := by
      rw [memcpy_length _ _ _ hfit]
      simp [store_read_length]
    by_cases hin : rollback_blk_addr i * 256 ≤ a ∧ a < rollback_blk_addr i * 256 + 256
    · rw [store_write_inside _ _ _ _ (by rw [take_256_length _ hlen]; exact hin),
        take_getD _ _ _ (by omega),
        memcpy_getD_outside _ _ _ _ hfit (by rw [UINT64_bytes_length]; omega),
        store_read_append_getD _ _ _ _ _ (by omega)]
      have hadd : rollback_blk_addr i * 256 + (a - rollback_blk_addr i * 256) = a := by omega
      rw [hadd]
    · rw [store_write_outside _ _ _ _ (by rw [take_256_length _ hlen]; omega)]

/-- A simulated rollback-index write over the faithful store changes no byte
outside the eight bytes at the byte offset of the index. -/
theorem write_simulate_frame (sb : Bool) (s : Rpmb Store) (i v a : Nat)
    (ha : a < rollback_byte_offset i ∨ rollback_byte_offset i + 8 ≤ a) :
    (write_rpmb_rollback_index_simulate (faithful sb) s i v).2.dev a = s.dev a := by
  simp only [write_rpmb_rollback_index_simulate, faithful, EFI_ERROR_SUCCESS,
    Bool.false_eq_true, if_false, if_neg EFI_SUCCESS_ne_NOT_FOUND]
  split
  · rfl
  · dsimp only
    apply store_write_outside
    have : (List.take 8 (memcpy (store_read s.dev (rollback_byte_offset i) 8 ++
        List.drop 8 s.rpmb_buffer) 0 (UINT64_bytes v))).length ≤ 8 := by
      rw [List.length_take]
      omega
    omega

theorem read_real_faithful (sb : Bool) (s : Rpmb Store) (j : Nat) :
    (read_rpmb_rollback_index_real (faithful sb) s j).1 = EFI_SUCCESS ∧
    (read_rpmb_rollback_index_real (faithful sb) s j).2.1
      = some (UINT64_of_bytes
          (store_read s.dev (rollback_blk_addr j * 256 + rollback_blk_offset j) 8)) := by
  have hoff := rollback_blk_offset_le j
  simp only [read_rpmb_rollback_index_real, faithful, EFI_ERROR_SUCCESS, Bool.false_eq_true,
    if_false, Nat.one_mul, true_and]
  rw [bytes_at_append_left _ _ _ _ (by rw [store_read_length]; exact hoff),
    bytes_at_store_read _ _ _ _ _ hoff]

theorem read_simulate_faithful (sb : Bool) (s : Rpmb Store) (j : Nat) :
    (read_rpmb_rollback_index_simulate (faithful sb) s j).1 = EFI_SUCCESS ∧
    (read_rpmb_rollback_index_simulate (faithful sb) s j).2.1
      = some (UINT64_of_bytes (store_read s.dev (rollback_byte_offset j) 8)) := by
  simp only [read_rpmb_rollback_index_simulate, faithful, EFI_ERROR_SUCCESS,
    Bool.false_eq_true, if_false, if_neg EFI_SUCCESS_ne_NOT_FOUND, true_and]
  have := bytes_at_zero_append (store_read s.dev (rollback_byte_offset j) 8)
    (List.drop 8 s.rpmb_buffer)
  rw [store_read_length] at this
  rw [this]

theorem rollback_real_address (i : Nat) (hi : i < 256) :
    rollback_blk_addr i * 256 + rollback_blk_offset i = 768 + i * 8 := by
  simp only [rollback_blk_addr, rollback_blk_offset, RPMB_ROLLBACK_INDEX_BLOCK_ADDR,
    RPMB_ROLLBACK_INDEX_COUNT_PER_BLOCK, RPMB_BLOCK_SIZE]
  omega

theorem rollback_simulate_address (i : Nat) (hi : i < 256) :
    rollback_byte_offset i = 768 + i * 8 := by
  simp only [rollback_byte_offset, RPMB_ROLLBACK_INDEX_BLOCK_ADDR, RPMB_BLOCK_SIZE]
  omega

/-- C15: frame of a rollback-index write over the faithful store, both
backends.  For distinct indices i and j in 0..255 and every value v, the write
of v at index i succeeds, leaves what read_rollback_index(j) returns unchanged,
leaves the device-state block (bytes 512..767) unchanged, and changes no stored
byte outside the eight bytes 768 + 8 i .. 768 + 8 i + 7 of index i. -/
theorem C15_rollback_write_frame (sb : Bool) (s : Rpmb Store) (i j v : Nat)
    (hi : i < 256) (hj : j < 256) (hij : i ≠ j) :
    ((write_rpmb_rollback_index_real (faithful sb) s i v).1 = EFI_SUCCESS ∧
      (read_rpmb_rollback_index_real (faithful sb)
          (write_rpmb_rollback_index_real (faithful sb) s i v).2 j).1
        = (read_rpmb_rollback_index_real (faithful sb) s j).1 ∧
      (read_rpmb_rollback_index_real (faithful sb)
          (write_rpmb_rollback_index_real (faithful sb) s i v).2 j).2.1
        = (read_rpmb_rollback_index_real (faithful sb) s j).2.1 ∧
      store_read (write_rpmb_rollback_index_real (faithful sb) s i v).2.dev 512 256
        = store_read s.dev 512 256 ∧
      (∀ a, a < 768 + i * 8 ∨ 768 + i * 8 + 8 ≤ a →
        (write_rpmb_rollback_index_real (faithful sb) s i v).2.dev a = s.dev a)) ∧
    ((write_rpmb_rollback_index_simulate (faithful sb) s i v).1 = EFI_SUCCESS ∧
      (read_rpmb_rollback_index_simulate (faithful sb)
          (write_rpmb_rollback_index_simulate (faithful sb) s i v).2 j).1
        = (read_rpmb_rollback_index_simulate (faithful sb) s j).1 ∧
      (read_rpmb_rollback_index_simulate (faithful sb)
          (write_rpmb_rollback_index_simulate (faithful sb) s i v).2 j).2.1
        = (read_rpmb_rollback_index_simulate (faithful sb) s j).2.1 ∧
      store_read (write_rpmb_rollback_index_simulate (faithful sb) s i v).2.dev 512 256
        = store_read s.dev 512 256 ∧
      (∀ a, a < 768 + i * 8 ∨ 768 + i * 8 + 8 ≤ a →
        (write_rpmb_rollback_index_simulate (faithful sb) s i v).2.dev a = s.dev a)) := by
  have hri := rollback_real_address i hi
  have hrj := rollback_real_address j hj
  have hsi := rollback_simulate_address i hi
  have hsj := rollback_simulate_address j hj
  have hfr : ∀ a, a < 768 + i * 8 ∨ 768 + i * 8 + 8 ≤ a →
      (write_rpmb_rollback_index_real (faithful sb) s i v).2.dev a = s.dev a := by
    intro a ha
    exact write_real_frame sb s i v a (by omega)
  have hfs : ∀ a, a < 768 + i * 8 ∨ 768 + i * 8 + 8 ≤ a →
      (write_rpmb_rollback_index_simulate (faithful sb) s i v).2.dev a = s.dev a := by
    intro a ha
    exact write_simulate_frame sb s i v a (by omega)
  refine ⟨⟨write_real_faithful_status sb s i v, ?_, ?_, ?_, hfr⟩,
    ⟨write_simulate_faithful_status sb s i v, ?_, ?_, ?_, hfs⟩⟩
  · rw [(read_real_faithful sb _ j).1, (read_real_faithful sb s j).1]
  · rw [(read_real_faithful sb _ j).2, (read_real_faithful sb s j).2, hrj]
    rw [store_read_congr s.dev _ (768 + j * 8) 8 (fun k hk => hfr _ (by omega))]
  · exact store_read_congr s.dev _ 512 256 (fun k hk => hfr _ (by omega))
  · rw [(read_simulate_faithful sb _ j).1, (read_simulate_faithful sb s j).1]
  · rw [(read_simulate_faithful sb _ j).2, (read_simulate_faithful sb s j).2, hsj]
    rw [store_read_congr s.dev _ (768 + j * 8) 8 (fun k hk => hfs _ (by omega))]
  · exact store_read_congr s.dev _ 512 256 (fun k hk => hfs _ (by omega))

/-- Witness for C15 at indices 5 and 6 of the same block, value 42, over the
zero-filled store. -/
theorem C15_rollback_write_frame_witness :
    (5 < 256 ∧ 6 < 256 ∧ 5 ≠ 6) ∧
    (read_rpmb_rollback_index_real (faithful false)
        (write_rpmb_rollback_index_real (faithful false) fresh 5 42).2 6).2.1
      = (read_rpmb_rollback_index_real (faithful false) fresh 6).2.1 ∧
    (read_rpmb_rollback_index_simulate (faithful false)
        (write_rpmb_rollback_index_simulate (faithful false) fresh 5 42).2 6).2.1
      = (read_rpmb_rollback_index_simulate (faithful false) fresh 6).2.1 :=
  ⟨⟨by decide, by decide, by decide⟩,
    (C15_rollback_write_frame false fresh 5 6 42 (by decide) (by decide) (by decide)).1.2.2.1,
    (C15_rollback_write_frame false fresh 5 6 42 (by decide) (by decide) (by decide)).2.2.2.1⟩

/-! ## Simulated erase over the faithful store -/

theorem zeros_getD (n k : Nat) : (List.replicate n 0).getD k 0 = 0 := by
  simp only [List.getD_eq_getElem?_getD, List.getElem?_replicate]
  split <;> rfl

/-- The store after n erase writes starting at block i: zero in the blocks
i .. i + n - 1, unchanged elsewhere. -/
theorem erase_dev_faithful (sb : Bool) :
    ∀ (n i : Nat) (m : Store) (a : Nat), (i + n) * 256 < 2 ^ 32 →
      erase_dev (faithful sb) (List.replicate 256 0) n i m a
        = if i * 256 ≤ a ∧ a < (i + n) * 256 then 0 else m a := by
  intro n
  induction n with
  | zero =>
    intro i m a _
    rw [erase_dev, if_neg (by omega)]
  | succ n ih =>
    intro i m a h
    have hmod : i * RPMB_BLOCK_SIZE % 2 ^ 32 = i * 256 := by
      simp only [RPMB_BLOCK_SIZE]
      omega
    have htake : List.take RPMB_BLOCK_SIZE (List.replicate 256 0) = List.replicate 256 0 :=
      List.take_of_length_le (by rw [List.length_replicate]; exact Nat.le_refl _)
    have hlen : (List.take RPMB_BLOCK_SIZE (List.replicate 256 0)).length = 256 := by
      rw [htake, List.length_replicate]
    rw [erase_dev, ih (i + 1) _ a (by omega)]
    simp only [faithful, hmod]
    by_cases h1 : (i + 1) * 256 ≤ a ∧ a < (i + 1 + n) * 256
    · rw [if_pos h1, if_pos (by omega)]
    · rw [if_neg h1]
      by_cases h2 : i * 256 ≤ a ∧ a < i * 256 + 256
      · rw [store_write_inside _ _ _ _ (by rw [hlen]; exact h2), if_pos (by omega), htake,
          zeros_getD]
      · rw [store_write_outside _ _ _ _ (by rw [hlen]; omega), if_neg (by omega)]

/-- The simulated erase over the faithful store succeeds and zeroes exactly
the bytes 0 .. 2559 (blocks 0 .. 9). -/
theorem erase_faithful (s : Rpmb Store) :
    (erase_rpmb_all_blocks (faithful false) s).1 = EFI_SUCCESS ∧
    ∀ a, (erase_rpmb_all_blocks (faithful false) s).2.dev a
      = if a < 2560 then 0 else s.dev a := by
  have hall : ∀ j, j < 10 → EFI_ERROR (erase_status (faithful false) (List.replicate 256 0) j 0
      s.dev) = false := fun _ _ => rfl
  have h := erase_loop_all_succeed (faithful false) 10 0 EFI_SUCCESS
    { s with rpmb_buffer := List.replicate 256 0 } hall
  rw [erase_rpmb_all_blocks_simulated (faithful false) s rfl, h.2.2.2 EFI_ERROR_SUCCESS]
  simp only [Bool.false_eq_true, if_false, true_and]
  intro a
  rw [h.2.1, erase_dev_faithful false 10 0 s.dev a (by decide)]
  by_cases ha : a < 2560
  · rw [if_pos (by omega), if_pos ha]
  · rw [if_neg (by omega), if_neg ha]

theorem store_read_zero (m : Store) (base : Nat) (h : ∀ k, k < 8 → m (base + k) = 0) :
    UINT64_of_bytes (store_read m base 8) = 0 := by
  rw [store_read_congr (fun _ => 0) m base 8 h]
  rfl

/-- C16 (what the code does): the simulated erase over the faithful store
succeeds, after it read_rollback_index returns 0 for the indices 0..223 and
read_device_state returns NotFound, but the counters of the indices 224..255
(block 10, bytes 2560..2815) are not reset: the erase covers the ten blocks
0..9 only and read_rollback_index returns for them what it returned before. -/
theorem C16_erase_misses_block_10 (s : Rpmb Store) :
    (erase_rpmb_all_blocks (faithful false) s).1 = EFI_SUCCESS ∧
    (∀ i, i < 224 →
      (read_rpmb_rollback_index_simulate (faithful false)
        (erase_rpmb_all_blocks (faithful false) s).2 i).1 = EFI_SUCCESS ∧
      (read_rpmb_rollback_index_simulate (faithful false)
        (erase_rpmb_all_blocks (faithful false) s).2 i).2.1 = some 0) ∧
    ((read_rpmb_device_state_simulate (faithful false)
        (erase_rpmb_all_blocks (faithful false) s).2).1 = EFI_NOT_FOUND ∧
      (read_rpmb_device_state_simulate (faithful false)
        (erase_rpmb_all_blocks (faithful false) s).2).2.1 = none) ∧
    (∀ i, 224 ≤ i → i < 256 →
      (read_rpmb_rollback_index_simulate (faithful false)
        (erase_rpmb_all_blocks (faithful false) s).2 i).2.1
        = (read_rpmb_rollback_index_simulate (faithful false) s i).2.1) := by
  have he := erase_faithful s
  refine ⟨he.1, fun i hi => ?_, ?_, fun i h1 h2 => ?_⟩
  · have hs := rollback_simulate_address i (by omega)
    refine ⟨(read_simulate_faithful false _ i).1, ?_⟩
    rw [(read_simulate_faithful false _ i).2, hs, store_read_zero]
    intro k hk
    rw [he.2, if_pos (by omega)]
  · have hd : (erase_rpmb_all_blocks (faithful false) s).2.dev 512 = 0 := by
      rw [he.2, if_pos (by decide)]
    generalize (erase_rpmb_all_blocks (faithful false) s).2 = x at hd ⊢
    have hne : ∀ y : List Nat, ¬ (store_read x.dev 512 256 ++ y).getD 0 0
        = DEVICE_STATE_MAGIC := by
      intro y
      rw [store_read_head, hd]
      decide
    simp only [read_rpmb_device_state_simulate, faithful, EFI_ERROR_SUCCESS,
      Bool.false_eq_true, if_false, RPMB_DEVICE_STATE_BLOCK_ADDR, RPMB_BLOCK_SIZE,
      Nat.reduceMul, Nat.reducePow, Nat.reduceMod, ne_eq, hne, not_false_eq_true, if_true,
      and_self]
  · have hs := rollback_simulate_address i h2
    rw [(read_simulate_faithful false _ i).2, (read_simulate_faithful false s i).2, hs]
    rw [store_read_congr s.dev _ (768 + i * 8) 8
      (fun k hk => by rw [he.2, if_neg (by omega)])]

set_option maxRecDepth 100000 in
/-- Witness for C16: rollback index 224 holds 42 before the simulated erase and
still holds 42, not 0, after it. -/
theorem C16_erase_misses_block_10_witness :
    (read_rpmb_rollback_index_simulate (faithful false) after_index_224_write 224).2.1
      = some 42 ∧
    (erase_rpmb_all_blocks (faithful false) after_index_224_write).1 = EFI_SUCCESS ∧
    (read_rpmb_rollback_index_simulate (faithful false)
      (erase_rpmb_all_blocks (faithful false) after_index_224_write).2 224).2.1 = some 42 ∧
    (read_rpmb_rollback_index_simulate (faithful false)
      (erase_rpmb_all_blocks (faithful false) after_index_224_write).2 224).2.1 ≠ some 0 := by
  have h := C16_erase_misses_block_10 after_index_224_write
  have h42 : (read_rpmb_rollback_index_simulate (faithful false) after_index_224_write
      224).2.1 = some 42 := by decide
  have h224 := h.2.2.2 224 (by decide) (by decide)
  rw [h42] at h224
  refine ⟨h42, h.1, h224, ?_⟩
  rw [h224]
  decide

/-! ## USB block cleaning -/

end Kernelflinger
